import Mathlib

/-!
Verification development for the CedrosPay react payment library.

The development shallowly embeds the core of the library:
the `StripeManager` class (translated from `src/components/PaymentModal.tsx`,
second embedded document, which holds the full class source), together with
the resilience primitives, the manager cache, the wallet pool and the x402
payment hook.  Components whose implementation files are absent from the
source snapshot (only their tests, type declarations and callers are present)
are modelled from the specification, and each such definition carries a
doc comment saying so.

All stateful code is embedded as explicit state passing; every network
interaction is resolved against a pure "world" record supplied as an
argument; each operation additionally emits a trace of events so that
ordering properties (rate-limit check before circuit breaker before retry
before network call) are expressible.
-/

namespace CedrosPay

/-! ## Error taxonomy

Modelled from the spec (§7): transient network failures, rate-limit
rejections, circuit-open rejections, server-reported HTTP errors,
initialization failures, and generic wrapped errors.  The concrete
`errorHandling.ts` / error-type sources are not in the snapshot. -/

inductive PayError where
  | rateLimited (msg : String)
  | circuitOpen (msg : String)
  | http (status : Nat) (msg : String)
  | network (msg : String)
  | initFailure (msg : String)
  | generic (msg : String)
deriving DecidableEq, Repr

/-- Modelled from the spec: `retry-with-backoff` "Only retries on transient
failure classes (network/5xx-equivalent); does not retry on
validation/4xx-equivalent failures" (§4.4).  Source file
`src/utils/exponentialBackoff.ts` is missing from the snapshot. -/
def isRetryableError : PayError → Bool
  | .network _ => true
  | .http status _ => 500 ≤ status
  | _ => false

/-- Message carried by an error; used to model `formatError(error, fallback)`
from the missing `src/utils/errorHandling.ts`.  Modelled from the spec:
error messages are "surfaced verbatim" (§6, §7). -/
def PayError.message : PayError → String
  | .rateLimited m => m
  | .circuitOpen m => m
  | .http _ m => m
  | .network m => m
  | .initFailure m => m
  | .generic m => m

/-- Modelled from the spec: `formatError` returns the error's own message,
falling back to the supplied default only when no message is available;
in this embedding every error carries a message. -/
def formatError (e : PayError) (_fallback : String) : String :=
  e.message

/-! ## Events

Each embedded operation emits a trace of the externally observable steps it
takes, in order.  This makes the composition-order claims (§4.4) statable. -/

inductive Event where
  | rateLimitCheck (allowed : Bool)
  | breakerRejected
  | breakerInvoke
  | retryAttempt (i : Nat)
  | probeCall (ok : Bool)
  | networkPost (url : String) (contentType : String) (idemKey : Nat)
  | redirectCall (sessionId : String)
deriving DecidableEq, Repr

/-- Events that may occur inside the retried unit of work (route discovery
probe, the actual network call) or as retry bookkeeping — as opposed to the
rate-limit check and circuit-breaker events that surround it. -/
def Event.isInner : Event → Bool
  | .retryAttempt _ => true
  | .probeCall _ => true
  | .networkPost _ _ _ => true
  | _ => false

def Event.isNetworkPost : Event → Bool
  | .networkPost _ _ _ => true
  | _ => false

/-- In `tr`, the retry loop has been entered before any network call is
issued: every network POST event is preceded, strictly earlier in the
trace, by a retry-attempt event.  A trace whose POST happens outside the
retry wrapper (before any retry attempt) violates this. -/
def retryPrecedesNetwork (tr : List Event) : Prop :=
  ∀ k, ∀ hk : k < tr.length, (tr.get ⟨k, hk⟩).isNetworkPost = true →
    ∃ j, ∃ hj : j < tr.length, j < k ∧
      ∃ i, tr.get ⟨j, hj⟩ = Event.retryAttempt i

/-! ## Rate limiter

Modelled from the spec: "token bucket {tokens: float ≤ capacity,
lastRefillAt}; refills continuously based on elapsed time × refill rate; a
call consumes one token or is rejected"; "`tryConsume() -> bool` ... never
blocks" (§3, §4.4).  Source file `src/utils/rateLimiter.ts` is missing from
the snapshot.  Token counts are rationals; time is in milliseconds. -/

structure RateLimiterConfig where
  capacity : ℚ
  refillPerMs : ℚ
deriving DecidableEq, Repr

structure RateLimiterState where
  tokens : ℚ
  lastRefillAt : Nat
deriving DecidableEq, Repr

/-- Refill the bucket for the elapsed time, clamped at capacity. -/
def rlRefill (cfg : RateLimiterConfig) (s : RateLimiterState) (now : Nat) :
    RateLimiterState :=
  let elapsed : ℚ := ((now - s.lastRefillAt : Nat) : ℚ)
  { tokens := min cfg.capacity (s.tokens + elapsed * cfg.refillPerMs)
    lastRefillAt := now }

/-- `tryConsume`: refill, then consume one token if at least one is
available, else reject. -/
def tryConsume (cfg : RateLimiterConfig) (s : RateLimiterState) (now : Nat) :
    Bool × RateLimiterState :=
  let s' := rlRefill cfg s now
  if 1 ≤ s'.tokens then
    (true, { s' with tokens := s'.tokens - 1 })
  else
    (false, s')

/-! ## Circuit breaker

Modelled from the spec: "{state ∈ {closed, open, half-open},
consecutiveFailures, openedAt}. Transitions: closed→open when
consecutiveFailures reaches threshold; open→half-open after timeout elapses;
half-open→closed on a successful trial call; half-open→open on a failed
trial call"; open state "calls fail fast with a distinguished 'circuit open'
error, no attempt made" (§3, §4.4).  Source file
`src/utils/circuitBreaker.ts` is missing from the snapshot. -/

inductive CircuitState where
  | closed
  | open
  | halfOpen
deriving DecidableEq, Repr

structure CircuitBreakerConfig where
  failureThreshold : Nat
  timeout : Nat
deriving DecidableEq, Repr

structure CircuitBreakerState where
  state : CircuitState
  consecutiveFailures : Nat
  openedAt : Nat
deriving DecidableEq, Repr

def CircuitBreakerState.initial : CircuitBreakerState :=
  { state := .closed, consecutiveFailures := 0, openedAt := 0 }

/-- Outcome of one `execute` call: the wrapped operation's result (when it
was invoked), the breaker's next state, the operation's final threaded
state, the emitted trace, and whether the operation was invoked at all. -/
structure CbRun (σ : Type) (α : Type) where
  result : Except PayError α
  breaker : CircuitBreakerState
  inner : σ
  trace : List Event
  invoked : Bool

/-- Whether an `execute` call arriving at time `now` runs the wrapped
operation (closed state, or open state whose timeout has elapsed). -/
def cbAdmits (cfg : CircuitBreakerConfig) (cb : CircuitBreakerState)
    (now : Nat) : Bool :=
  match cb.state with
  | .closed => true
  | .halfOpen => true
  | .open => cb.openedAt + cfg.timeout ≤ now

/-- Breaker bookkeeping after an admitted call finished: success closes the
breaker and resets the failure count; failure increments the count and opens
the breaker once the count reaches the threshold (a failure in the trial
position re-opens immediately, which the threshold comparison also covers
because a trial failure from the open/half-open path sets the count at
`threshold`). -/
def cbAfter (cfg : CircuitBreakerConfig) (cb : CircuitBreakerState)
    (now : Nat) (succeeded : Bool) : CircuitBreakerState :=
  if succeeded then
    { state := .closed, consecutiveFailures := 0, openedAt := cb.openedAt }
  else
    let failures :=
      match cb.state with
      | .closed => cb.consecutiveFailures + 1
      | _ => cfg.failureThreshold
    if cfg.failureThreshold ≤ failures then
      { state := .open, consecutiveFailures := failures, openedAt := now }
    else
      { state := .closed, consecutiveFailures := failures
        openedAt := cb.openedAt }

/-- `execute(fn)`: fail fast with a circuit-open error while the breaker is
open and the cool-down has not elapsed; otherwise run the wrapped operation
(one trial call when the cool-down has elapsed) and update the breaker from
its outcome. -/
def cbExecute {σ α : Type} (cfg : CircuitBreakerConfig)
    (cb : CircuitBreakerState) (now : Nat)
    (op : σ → Except PayError α × σ × List Event) (st : σ) : CbRun σ α :=
  if cbAdmits cfg cb now then
    let (r, st', tr) := op st
    { result := r
      breaker := cbAfter cfg cb now r.isOk
      inner := st'
      trace := .breakerInvoke :: tr
      invoked := true }
  else
    { result := .error (.circuitOpen "Circuit breaker is open")
      breaker := cb
      inner := st
      trace := [.breakerRejected]
      invoked := false }

/-! ## Retry with backoff

Modelled from the spec: "wraps a unit of work with N attempts, exponential
delay between attempts ... Only retries on transient failure classes" (§4.4).
Source file `src/utils/exponentialBackoff.ts` is missing from the snapshot.
Delays are irrelevant to the verified claims and are not modelled; the
attempt index is threaded so the world can answer each attempt. -/

structure RetryConfig where
  maxAttempts : Nat
deriving DecidableEq, Repr

/-- The `STANDARD` retry preset used by `StripeManager`; modelled from the
spec's "N attempts" with the customary three attempts. -/
def RETRY_PRESETS_STANDARD : RetryConfig := { maxAttempts := 3 }

/-- Core retry loop: run attempt `i`; stop on success, on a non-retryable
error, or when the attempt budget is exhausted. -/
def retryLoop {σ α : Type}
    (att : Nat → σ → Except PayError α × σ × List Event) :
    Nat → Nat → σ → Except PayError α × σ × List Event
  | 0, _, st => (.error (.generic "retry budget exhausted"), st, [])
  | remaining + 1, i, st =>
    let (r, st', tr) := att i st
    match r with
    | .ok a => (.ok a, st', .retryAttempt i :: tr)
    | .error e =>
      if isRetryableError e ∧ 0 < remaining then
        let (r₂, st₂, tr₂) := retryLoop att remaining (i + 1) st'
        (r₂, st₂, (.retryAttempt i :: tr) ++ tr₂)
      else
        (.error e, st', .retryAttempt i :: tr)

def retryWithBackoff {σ α : Type} (cfg : RetryConfig)
    (att : Nat → σ → Except PayError α × σ × List Event) (st : σ) :
    Except PayError α × σ × List Event :=
  retryLoop att cfg.maxAttempts 0 st

/-! ## Route discovery

Modelled from the spec: "On first call for a given server URL, performs a
health-check request to discover a routing prefix ...; caches the prefix.
Subsequent calls reuse the cached prefix without re-probing. If the health
check fails, surfaces the failure to the caller of buildUrl" (§4.3).
Source file `src/managers/RouteDiscoveryManager.ts` is missing from the
snapshot; only its callers and tests are present. -/

structure RouteState where
  discovered : Option String
deriving DecidableEq, Repr

/-- `buildUrl(path)`: concatenate server URL, the (possibly just probed)
route mount path and the request path. -/
def buildUrl (serverUrl : String) (rs : RouteState)
    (probeAnswer : Except PayError String) (path : String) :
    Except PayError String × RouteState × List Event :=
  match rs.discovered with
  | some mount => (.ok (serverUrl ++ mount ++ path), rs, [])
  | none =>
    match probeAnswer with
    | .ok mount =>
      (.ok (serverUrl ++ mount ++ path), { discovered := some mount },
        [.probeCall true])
    | .error e => (.error e, rs, [.probeCall false])

/-! ## StripeManager data model

Translated from `src/components/PaymentModal.tsx` (embedded `StripeManager`
source) and the type declarations it uses. -/

structure StripeSessionRequest where
  resource : String
  successUrl : Option String := none
  cancelUrl : Option String := none
  metadata : List (String × String) := []
  customerEmail : Option String := none
  couponCode : Option String := none
deriving DecidableEq, Repr

structure StripeSessionResponse where
  sessionId : String
  url : String
deriving DecidableEq, Repr

structure SettlementResponse where
  transaction : String
  network : String
  payer : String
deriving DecidableEq, Repr

structure PaymentResult where
  success : Bool
  transactionId : Option String := none
  txHash : Option String := none
  error : Option String := none
  settlement : Option SettlementResponse := none
deriving DecidableEq, Repr

structure NormalizedCartItem where
  resource : String
  quantity : Nat
deriving DecidableEq, Repr

structure ProcessCartCheckoutOptions where
  items : List NormalizedCartItem
  successUrl : Option String := none
  cancelUrl : Option String := none
  metadata : List (String × String) := []
  customerEmail : Option String := none
  couponCode : Option String := none
deriving DecidableEq, Repr

/-- The circuit-breaker configuration `StripeManager` installs:
`{ failureThreshold: 5, timeout: 10000, name: 'stripe-manager' }`
(PaymentModal.tsx, `StripeManager.circuitBreaker`). -/
def stripeManagerBreakerConfig : CircuitBreakerConfig :=
  { failureThreshold := 5, timeout := 10000 }

/-- Static configuration of one `StripeManager` instance.  The rate-limiter
preset `RATE_LIMITER_PRESETS.PAYMENT` lives in the missing
`src/utils/rateLimiter.ts`, so its capacity/refill numbers stay abstract
here as fields. -/
structure StripeManagerConfig where
  publicKey : String
  serverUrl : String
  rateLimiter : RateLimiterConfig
  retry : RetryConfig := RETRY_PRESETS_STANDARD
deriving DecidableEq, Repr

/-- Mutable state of one `StripeManager` instance: the lazily initialized
Stripe.js handle (as an initialized flag), the shared rate limiter and
circuit breaker, the route-discovery cache, and the source of fresh
idempotency keys.  `generateUUID` (missing `src/utils/uuid.ts`, a wrapper
over `crypto.randomUUID()`) is modelled from the spec as a "per-attempt
unique token" supply: a counter whose current value is the next key. -/
structure StripeManagerState where
  stripeLoaded : Bool
  rateLimiter : RateLimiterState
  breaker : CircuitBreakerState
  routes : RouteState
  uuidCounter : Nat
deriving DecidableEq, Repr

/-- State threaded through the retried unit of work inside
`createSession` / `processCartCheckout`: route cache and uuid counter. -/
structure AttemptState where
  routes : RouteState
  uuidCounter : Nat
deriving DecidableEq, Repr

/-- Pure stand-in for the outside world of one `StripeManager` call:
the discovery probe answer, the per-attempt answer of the session endpoint,
whether `loadStripe` yields a client, and the client-reported redirect
error, if any. -/
structure StripeWorld where
  probeAnswer : Except PayError String
  sessionAnswer : Nat → Except PayError StripeSessionResponse
  loadStripeOk : Bool
  redirectError : Option String

/-- One attempt of the retried unit of work in `createSession`:
build the URL via route discovery, POST the request JSON with
`Content-Type: application/json` and a fresh `Idempotency-Key`, throw the
parsed error message on a non-2xx response, return the parsed body
otherwise.  Translated from PaymentModal.tsx lines 332–357. -/
def createSessionAttempt (cfg : StripeManagerConfig) (w : StripeWorld)
    (i : Nat) (a : AttemptState) :
    Except PayError StripeSessionResponse × AttemptState × List Event :=
  let (urlRes, routes', trUrl) :=
    buildUrl cfg.serverUrl a.routes w.probeAnswer "/paywall/v1/stripe-session"
  match urlRes with
  | .error e => (.error e, { a with routes := routes' }, trUrl)
  | .ok url =>
    let key := a.uuidCounter
    let a' : AttemptState := { routes := routes', uuidCounter := key + 1 }
    let post := Event.networkPost url "application/json" key
    match w.sessionAnswer i with
    | .ok body => (.ok body, a', trUrl ++ [post])
    | .error e => (.error e, a', trUrl ++ [post])

/-- `StripeManager.createSession` (PaymentModal.tsx lines 324–368):
rate-limit check first (throwing on rejection), then the circuit breaker
wrapping `retryWithBackoff` around the network attempt; a
`CircuitBreakerOpenError` is re-thrown as a generic unavailability error. -/
def createSession (cfg : StripeManagerConfig) (s : StripeManagerState)
    (now : Nat) (w : StripeWorld) (_req : StripeSessionRequest) :
    Except PayError StripeSessionResponse × StripeManagerState × List Event :=
  let (allowed, rl') := tryConsume cfg.rateLimiter s.rateLimiter now
  if allowed then
    let run := cbExecute stripeManagerBreakerConfig s.breaker now
      (retryWithBackoff cfg.retry (createSessionAttempt cfg w))
      { routes := s.routes, uuidCounter := s.uuidCounter }
    let result :=
      match run.result with
      | .error (.circuitOpen _) =>
        .error (.generic "Stripe payment service is temporarily unavailable. Please try again in a few moments.")
      | r => r
    (result,
      { s with rateLimiter := rl', breaker := run.breaker
               routes := run.inner.routes, uuidCounter := run.inner.uuidCounter },
      .rateLimitCheck true :: run.trace)
  else
    (.error (.rateLimited "Rate limit exceeded for Stripe session creation. Please try again later."),
      { s with rateLimiter := rl' }, [.rateLimitCheck false])

/-- `StripeManager.initialize` (PaymentModal.tsx lines 309–319): no-op when
already initialized; otherwise load Stripe.js, throwing when the library
reports failure. -/
def initStripe (s : StripeManagerState) (w : StripeWorld) :
    Except PayError Unit × StripeManagerState :=
  if s.stripeLoaded then (.ok (), s)
  else if w.loadStripeOk then (.ok (), { s with stripeLoaded := true })
  else (.error (.initFailure "Failed to initialize Stripe"), s)

/-- `StripeManager.redirectToCheckout` (PaymentModal.tsx lines 373–396):
ensure initialization (propagating its failure), guard on the handle,
invoke the client redirect, and convert a client-reported error into a
failure result. -/
def redirectToCheckout (s : StripeManagerState) (w : StripeWorld)
    (sessionId : String) :
    Except PayError PaymentResult × StripeManagerState × List Event :=
  let (initRes, s₁) :=
    if s.stripeLoaded then (.ok (), s) else initStripe s w
  match initRes with
  | .error e => (.error e, s₁, [])
  | .ok _ =>
    if s₁.stripeLoaded then
      match w.redirectError with
      | some msg =>
        (.ok { success := false, error := some msg }, s₁,
          [.redirectCall sessionId])
      | none =>
        (.ok { success := true }, s₁, [.redirectCall sessionId])
    else
      (.ok { success := false, error := some "Stripe not initialized" }, s₁, [])

/-- `StripeManager.processPayment` (PaymentModal.tsx lines 401–411):
`createSession` then `redirectToCheckout`, with every thrown error wrapped
into a failure result via `formatError(error, 'Unknown error')`. -/
def processPayment (cfg : StripeManagerConfig) (s : StripeManagerState)
    (now : Nat) (w : StripeWorld) (req : StripeSessionRequest) :
    Except PayError PaymentResult × StripeManagerState × List Event :=
  let (sessionRes, s₁, tr₁) := createSession cfg s now w req
  match sessionRes with
  | .error e =>
    (.ok { success := false, error := some (formatError e "Unknown error") },
      s₁, tr₁)
  | .ok session =>
    let (redirRes, s₂, tr₂) := redirectToCheckout s₁ w session.sessionId
    match redirRes with
    | .error e =>
      (.ok { success := false, error := some (formatError e "Unknown error") },
        s₂, tr₁ ++ tr₂)
    | .ok r => (.ok r, s₂, tr₁ ++ tr₂)

/-- One attempt of the retried unit of work in `processCartCheckout`:
POST the normalized cart request to `/paywall/v1/cart/checkout` with a
fresh idempotency key (PaymentModal.tsx lines 431–461). -/
def cartCheckoutAttempt (cfg : StripeManagerConfig) (w : StripeWorld)
    (i : Nat) (a : AttemptState) :
    Except PayError StripeSessionResponse × AttemptState × List Event :=
  let (urlRes, routes', trUrl) :=
    buildUrl cfg.serverUrl a.routes w.probeAnswer "/paywall/v1/cart/checkout"
  match urlRes with
  | .error e => (.error e, { a with routes := routes' }, trUrl)
  | .ok url =>
    let key := a.uuidCounter
    let a' : AttemptState := { routes := routes', uuidCounter := key + 1 }
    let post := Event.networkPost url "application/json" key
    match w.sessionAnswer i with
    | .ok body => (.ok body, a', trUrl ++ [post])
    | .error e => (.error e, a', trUrl ++ [post])

/-- `StripeManager.processCartCheckout` (PaymentModal.tsx lines 416–477):
rate-limit check first, returning a failure *result* on rejection; then the
circuit breaker wrapping the retried cart POST; then the redirect; a
`CircuitBreakerOpenError` becomes an unavailability failure result and any
other thrown error a failure result via
`formatError(error, 'Cart checkout failed')`. -/
def processCartCheckout (cfg : StripeManagerConfig) (s : StripeManagerState)
    (now : Nat) (w : StripeWorld) (_options : ProcessCartCheckoutOptions) :
    Except PayError PaymentResult × StripeManagerState × List Event :=
  let (allowed, rl') := tryConsume cfg.rateLimiter s.rateLimiter now
  if allowed then
    let run := cbExecute stripeManagerBreakerConfig s.breaker now
      (retryWithBackoff cfg.retry (cartCheckoutAttempt cfg w))
      { routes := s.routes, uuidCounter := s.uuidCounter }
    let s₁ : StripeManagerState :=
      { s with rateLimiter := rl', breaker := run.breaker
               routes := run.inner.routes, uuidCounter := run.inner.uuidCounter }
    match run.result with
    | .ok session =>
      let (redirRes, s₂, tr₂) := redirectToCheckout s₁ w session.sessionId
      match redirRes with
      | .error e =>
        (.ok { success := false
               error := some (formatError e "Cart checkout failed") },
          s₂, (.rateLimitCheck true :: run.trace) ++ tr₂)
      | .ok r => (.ok r, s₂, (.rateLimitCheck true :: run.trace) ++ tr₂)
    | .error (.circuitOpen _) =>
      (.ok { success := false
             error := some "Stripe payment service is temporarily unavailable. Please try again in a few moments." },
        s₁, .rateLimitCheck true :: run.trace)
    | .error e =>
      (.ok { success := false
             error := some (formatError e "Cart checkout failed") },
        s₁, .rateLimitCheck true :: run.trace)
  else
    (.ok { success := false
           error := some "Rate limit exceeded for cart checkout. Please try again later." },
      { s with rateLimiter := rl' }, [.rateLimitCheck false])

/-! ## Manager cache

Modelled from the spec: "`acquire(config) -> (managers, release)`"; the
cache is "keyed by a canonicalized configuration fingerprint (server URL,
public key, cluster, etc.)"; an entry is
"{fingerprint, managers bundle, refCount: integer ≥ 0, createdAt}";
"created on first acquisition for a fingerprint (refCount=1); refCount
increments on each subsequent acquisition with the same fingerprint;
decrements on release; entry is destroyed and removed from the cache the
instant refCount reaches 0 — synchronously, no delayed sweep"; "a new
acquisition with the same fingerprint constructs a fresh entry" (§3, §4.1).
Source file `src/managers/ManagerCache.ts` is missing from the snapshot;
only its tests (`__tests__/e2e/multi-provider.e2e.test.tsx`) and callers are
present.  Manager bundles are represented by their creation index
(`bundleId`), which stands for the bundle's object identity: two
acquisitions return reference-equal bundles exactly when they return equal
`bundleId`s. -/

structure CedrosConfig where
  stripePublicKey : String
  serverUrl : String
  solanaCluster : String
  usdcMint : Option String := none
  solanaEndpoint : Option String := none
deriving DecidableEq, Repr

/-- The canonicalized configuration fingerprint: the tuple of the
network-identity-relevant fields.  A canonical tuple is deterministic and
independent of source-object key ordering by construction. -/
structure Fingerprint where
  stripePublicKey : String
  serverUrl : String
  solanaCluster : String
  usdcMint : Option String
  solanaEndpoint : Option String
deriving DecidableEq, Repr

def fingerprintOf (c : CedrosConfig) : Fingerprint :=
  { stripePublicKey := c.stripePublicKey
    serverUrl := c.serverUrl
    solanaCluster := c.solanaCluster
    usdcMint := c.usdcMint
    solanaEndpoint := c.solanaEndpoint }

structure CacheEntry where
  fingerprint : Fingerprint
  bundleId : Nat
  refCount : Nat
deriving DecidableEq, Repr

structure CacheState where
  entries : List CacheEntry
  nextBundleId : Nat
deriving DecidableEq, Repr

def CacheState.empty : CacheState := { entries := [], nextBundleId := 0 }

def lookupEntry (fp : Fingerprint) (es : List CacheEntry) :
    Option CacheEntry :=
  es.find? (fun e => decide (e.fingerprint = fp))

/-- Increment the refCount of the entry for `fp` (in place, other entries
untouched). -/
def bumpEntry (fp : Fingerprint) (es : List CacheEntry) : List CacheEntry :=
  es.map (fun e =>
    if e.fingerprint = fp then { e with refCount := e.refCount + 1 } else e)

/-- `acquire(config)`: existing entry → increment refCount and return the
existing bundle; no entry → construct a fresh bundle, insert with
refCount 1. -/
def acquire (c : CedrosConfig) (s : CacheState) : Nat × CacheState :=
  let fp := fingerprintOf c
  match lookupEntry fp s.entries with
  | some e => (e.bundleId, { s with entries := bumpEntry fp s.entries })
  | none =>
    (s.nextBundleId,
      { entries :=
          s.entries ++ [{ fingerprint := fp, bundleId := s.nextBundleId
                          refCount := 1 }]
        nextBundleId := s.nextBundleId + 1 })

/-- `release`: decrement the matching entry's refCount, removing the entry
synchronously the instant the count reaches 0. -/
def release (fp : Fingerprint) (s : CacheState) : CacheState :=
  match lookupEntry fp s.entries with
  | none => s
  | some e =>
    if e.refCount ≤ 1 then
      { s with entries :=
          s.entries.filter (fun e' => decide (¬ e'.fingerprint = fp)) }
    else
      { s with entries :=
          s.entries.map (fun e' =>
            if e'.fingerprint = fp then { e' with refCount := e'.refCount - 1 }
            else e') }

/-- The cache's introspection: refCount of the entry for `fp`, 0 when the
entry is absent (`getManagerCacheStats`). -/
def refCountOf (fp : Fingerprint) (s : CacheState) : Nat :=
  match lookupEntry fp s.entries with
  | some e => e.refCount
  | none => 0

def hasEntry (fp : Fingerprint) (s : CacheState) : Bool :=
  (lookupEntry fp s.entries).isSome

/-- Number of cache entries (`getManagerCacheStats().entries`). -/
def cacheEntryCount (s : CacheState) : Nat := s.entries.length

/-- `n` successive acquisitions of the same configuration. -/
def acquireN (c : CedrosConfig) : Nat → CacheState → CacheState
  | 0, s => s
  | n + 1, s => acquireN c n (acquire c s).2

/-- `n` successive releases of the same fingerprint. -/
def releaseN (fp : Fingerprint) : Nat → CacheState → CacheState
  | 0, s => s
  | n + 1, s => releaseN fp n (release fp s)

/-- Well-formedness of a cache state: every stored bundle id is below the
allocation counter, bundle ids are distinct, and each fingerprint has at
most one entry. -/
def CacheWF (s : CacheState) : Prop :=
  (∀ e ∈ s.entries, e.bundleId < s.nextBundleId) ∧
  (s.entries.map (·.bundleId)).Nodup ∧
  (s.entries.map (·.fingerprint)).Nodup

/-! ## Wallet pool

Modelled from the spec: "`create() -> pool` per owning scope; `pool.getId()`,
`pool.getAdapters()`, `pool.cleanup()`"; "`create()` generates a unique id
(time-based + random suffix) and eagerly constructs the default adapter
set"; "`getAdapters()` returns the same array identity across repeated
calls within the pool's lifetime ... values are not regenerated per call";
"Security invariant: no two pools, even for the same configuration, ever
share an adapter instance" (§4.2).  Source file `src/utils/walletPool.ts`
is missing from the snapshot; only its tests and callers are present.
Object identity (of pools, of the adapters array, of each adapter) is
modelled by allocation indices drawn from a monotone counter threaded as
`PoolGen`. -/

structure WalletAdapter where
  instanceId : Nat
  name : String
deriving DecidableEq, Repr

structure WalletPool where
  id : Nat
  adaptersArrayId : Nat
  adapters : List WalletAdapter
deriving DecidableEq, Repr

/-- Allocation state for object identities. -/
structure PoolGen where
  next : Nat
deriving DecidableEq, Repr

/-- The default adapter set constructed eagerly by `create()` (the tests
exercise a Phantom adapter among the defaults). -/
def defaultAdapterNames : List String := ["Phantom", "Solflare"]

/-- `createWalletPool`: allocate a fresh pool identity, a fresh adapters
array identity, and a fresh instance of every default adapter. -/
def createWalletPool (g : PoolGen) : WalletPool × PoolGen :=
  let poolId := g.next
  let arrayId := g.next + 1
  let adapters := (defaultAdapterNames.enum).map
    (fun p => { instanceId := g.next + 2 + p.1, name := p.2 : WalletAdapter })
  ({ id := poolId, adaptersArrayId := arrayId, adapters := adapters },
    { next := g.next + 2 + defaultAdapterNames.length })

/-- `getAdapters()`: return the stored adapters array; nothing is
regenerated, so the allocation state is untouched and the returned array
identity is the pool's stored one. -/
def getAdapters (p : WalletPool) (g : PoolGen) :
    (Nat × List WalletAdapter) × PoolGen :=
  ((p.adaptersArrayId, p.adapters), g)

/-! ## x402 payment orchestration hook

Modelled from the spec: states "`idle → loading → (success | error)`";
"on trigger, fetch a fresh quote (never reuse a previous quote held in
state)"; "On signature success, submit payment"; "On verification success →
`success`, settlement extracted from the nested field"; "a second trigger
while already `loading` is a no-op (request deduplication)" (§4.7), and the
documented fixed logic in
`__tests__/hooks/useX402Payment.integration.test.tsx`:
`const currentRequirement = await x402Manager.requestQuote(resource,
couponCode)` with no OR-fallback to state, and
`if (result.settlement) { setSettlement(result.settlement) }`.
Source files `src/hooks/useX402Payment.ts` and
`src/managers/X402Manager.ts` are missing from the snapshot. -/

structure X402Requirement where
  scheme : String
  network : String
  maxAmountRequired : Nat
  payTo : String
  asset : String
  resource : String
deriving DecidableEq, Repr

inductive HookStatus where
  | idle
  | loading
  | success
  | error
deriving DecidableEq, Repr

structure HookState where
  status : HookStatus
  requirement : Option X402Requirement
  settlement : Option SettlementResponse
  transactionId : Option String
  errorMsg : Option String
deriving DecidableEq, Repr

def HookState.initial : HookState :=
  { status := .idle, requirement := none, settlement := none
    transactionId := none, errorMsg := none }

/-- Observable steps of one payment flow. -/
inductive FlowEvent where
  | quoteRequest (resource : String) (coupon : Option String)
  | txBuild (requirement : X402Requirement)
  | signRequest
  | verifyPost (resource : String)
deriving DecidableEq, Repr

/-- Pure stand-in for the outside world of one payment flow: the server's
answer to the quote request issued *now*, the wallet's signing outcome, and
the server's verification answer. -/
structure FlowWorld where
  quoteAnswer : Except String X402Requirement
  signAnswer : Except String String
  verifyAnswer : Except String PaymentResult

/-- `triggerPayment`: the payment flow run by the orchestration hook.
A trigger while `loading` is a no-op; otherwise a fresh quote is requested
unconditionally (the held `requirement` is never consulted), the
transaction is built over the fresh requirement, the wallet signs, the
payment is verified, and on a successful result the settlement is taken
from the result's nested `settlement` field. -/
def triggerPayment (st : HookState) (resource : String)
    (coupon : Option String) (w : FlowWorld) : HookState × List FlowEvent :=
  if st.status = .loading then (st, [])
  else
    let evQuote := FlowEvent.quoteRequest resource coupon
    match w.quoteAnswer with
    | .error msg =>
      ({ st with status := .error, errorMsg := some msg }, [evQuote])
    | .ok freshReq =>
      let evs₁ := [evQuote, .txBuild freshReq, .signRequest]
      match w.signAnswer with
      | .error msg =>
        ({ st with status := .error, errorMsg := some msg }, evs₁)
      | .ok _sig =>
        let evs₂ := evs₁ ++ [FlowEvent.verifyPost resource]
        match w.verifyAnswer with
        | .error msg =>
          ({ st with status := .error, errorMsg := some msg }, evs₂)
        | .ok result =>
          if result.success then
            ({ status := .success
               requirement := some freshReq
               settlement := result.settlement
               transactionId := result.transactionId
               errorMsg := none }, evs₂)
          else
            ({ st with status := .error
                       errorMsg := some (result.error.getD "Payment failed") },
              evs₂)

/-- Number of outbound quote requests in a flow trace. -/
def quoteRequestCount (tr : List FlowEvent) : Nat :=
  (tr.filter (fun e =>
    match e with
    | .quoteRequest _ _ => true
    | _ => false)).length

/-! ## Helper constructions for the circuit-breaker analysis -/

/-- A wrapped operation that always fails with a transient network error. -/
def cbFailingOp : Unit → Except PayError Unit × Unit × List Event :=
  fun u => (.error (.network "network failure"), u, [])

/-- A wrapped operation that always succeeds. -/
def cbSucceedingOp : Unit → Except PayError Unit × Unit × List Event :=
  fun u => (.ok (), u, [])

/-- The breaker state after one `execute` of a failing operation at `now`. -/
def cbFailStep (cfg : CircuitBreakerConfig) (now : Nat)
    (cb : CircuitBreakerState) : CircuitBreakerState :=
  (cbExecute cfg cb now cbFailingOp ()).breaker

/-- The breaker state after `k` consecutive `execute`s of a failing
operation, all at time `now`. -/
def cbFailN (cfg : CircuitBreakerConfig) (now : Nat) :
    Nat → CircuitBreakerState → CircuitBreakerState
  | 0, cb => cb
  | k + 1, cb => cbFailStep cfg now (cbFailN cfg now k cb)

/-! # Lemmas: manager cache -/

theorem lookupEntry_map_self (fp : Fingerprint) (f : CacheEntry → CacheEntry)
    (hf : ∀ e, (f e).fingerprint = e.fingerprint) (es : List CacheEntry) :
    lookupEntry fp (es.map (fun e => if e.fingerprint = fp then f e else e)) =
      (lookupEntry fp es).map f := by
  induction es with
  | nil => rfl
  | cons x xs ih =>
    by_cases hx : x.fingerprint = fp
    · simp only [lookupEntry, List.map_cons, if_pos hx]
      rw [List.find?_cons_of_pos _ (by simp [hf x, hx]),
        List.find?_cons_of_pos _ (by simp [hx])]
      rfl
    · simp only [lookupEntry, List.map_cons, if_neg hx]
      rw [List.find?_cons_of_neg _ (by simp [hx]),
        List.find?_cons_of_neg _ (by simp [hx])]
      exact ih

theorem lookupEntry_map_other (fp fp' : Fingerprint) (hne : fp' ≠ fp)
    (f : CacheEntry → CacheEntry)
    (hf : ∀ e, (f e).fingerprint = e.fingerprint) (es : List CacheEntry) :
    lookupEntry fp' (es.map (fun e => if e.fingerprint = fp then f e else e)) =
      lookupEntry fp' es := by
  induction es with
  | nil => rfl
  | cons x xs ih =>
    by_cases hx : x.fingerprint = fp
    · simp only [lookupEntry, List.map_cons, if_pos hx]
      rw [List.find?_cons_of_neg _
          (by simp [hf x, hx]; exact fun hc => hne hc.symm),
        List.find?_cons_of_neg _
          (by simp [hx]; exact fun hc => hne hc.symm)]
      exact ih
    · by_cases hx' : x.fingerprint = fp'
      · simp only [lookupEntry, List.map_cons, if_neg hx]
        rw [List.find?_cons_of_pos _ (by simp [hx']),
          List.find?_cons_of_pos _ (by simp [hx'])]
      · simp only [lookupEntry, List.map_cons, if_neg hx]
        rw [List.find?_cons_of_neg _ (by simp [hx']),
          List.find?_cons_of_neg _ (by simp [hx'])]
        exact ih

theorem lookupEntry_bump_self (fp : Fingerprint) (es : List CacheEntry) :
    lookupEntry fp (bumpEntry fp es) =
      (lookupEntry fp es).map
        (fun e => { e with refCount := e.refCount + 1 }) := by
  unfold bumpEntry
  exact lookupEntry_map_self fp
    (fun e => { e with refCount := e.refCount + 1 }) (fun _ => rfl) es

theorem lookupEntry_filter_self (fp : Fingerprint) (es : List CacheEntry) :
    lookupEntry fp (es.filter (fun e => decide (¬ e.fingerprint = fp))) =
      none := by
  rw [lookupEntry, List.find?_eq_none]
  intro e he
  have := (List.mem_filter.mp he).2
  simpa using this

theorem lookupEntry_append_single (fp : Fingerprint) (es : List CacheEntry)
    (e : CacheEntry) (h : lookupEntry fp es = none) (he : e.fingerprint = fp) :
    lookupEntry fp (es ++ [e]) = some e := by
  rw [lookupEntry, List.find?_append]
  rw [lookupEntry] at h
  rw [h]
  simp [List.find?_cons_of_pos, he]

theorem lookupEntry_some_props (fp : Fingerprint) (es : List CacheEntry)
    (e : CacheEntry) (h : lookupEntry fp es = some e) :
    e.fingerprint = fp ∧ e ∈ es := by
  have h' : es.find? (fun x => decide (x.fingerprint = fp)) = some e := h
  have hp := List.find?_some h'
  have hm := List.mem_of_find?_eq_some h'
  exact ⟨of_decide_eq_true (by simpa using hp), hm⟩

theorem lookupEntry_append_single_other (fp : Fingerprint)
    (es : List CacheEntry) (e : CacheEntry) (he : e.fingerprint ≠ fp) :
    lookupEntry fp (es ++ [e]) = lookupEntry fp es := by
  rw [lookupEntry, List.find?_append, lookupEntry]
  cases hfind : es.find? (fun e' => decide (e'.fingerprint = fp)) with
  | some x => rfl
  | none => simp [List.find?_cons_of_neg, he]

/-- After `k` further acquisitions, an entry holding refCount `r` holds
refCount `r + k`, with the same bundle. -/
theorem acquireN_lookup (c : CedrosConfig) (b : Nat) :
    ∀ (k r : Nat) (s : CacheState),
      lookupEntry (fingerprintOf c) s.entries =
        some { fingerprint := fingerprintOf c, bundleId := b, refCount := r } →
      lookupEntry (fingerprintOf c) (acquireN c k s).entries =
        some { fingerprint := fingerprintOf c, bundleId := b
               refCount := r + k } := by
  intro k
  induction k with
  | zero => intro r s h; simpa using h
  | succ k ih =>
    intro r s h
    show lookupEntry _ (acquireN c k (acquire c s).2).entries = _
    have hstep :
        lookupEntry (fingerprintOf c) (acquire c s).2.entries =
          some { fingerprint := fingerprintOf c, bundleId := b
                 refCount := r + 1 } := by
      simp only [acquire, h]
      rw [lookupEntry_bump_self, h]
      rfl
    have := ih (r + 1) (acquire c s).2 hstep
    rw [this]
    congr 2
    omega

/-- The first acquisition for an absent fingerprint creates the entry with
refCount 1 and the freshly allocated bundle. -/
theorem acquire_fresh_lookup (c : CedrosConfig) (s : CacheState)
    (h : lookupEntry (fingerprintOf c) s.entries = none) :
    lookupEntry (fingerprintOf c) (acquire c s).2.entries =
      some { fingerprint := fingerprintOf c, bundleId := s.nextBundleId
             refCount := 1 } := by
  simp only [acquire, h]
  exact lookupEntry_append_single _ _ _ h rfl

/-- One release on an entry with refCount at least 2 decrements it. -/
theorem release_dec_lookup (fp : Fingerprint) (b r : Nat) (s : CacheState)
    (h : lookupEntry fp s.entries =
      some { fingerprint := fp, bundleId := b, refCount := r })
    (hr : 2 ≤ r) :
    lookupEntry fp (release fp s).entries =
      some { fingerprint := fp, bundleId := b, refCount := r - 1 } := by
  have hr1 : ¬ r ≤ 1 := by omega
  simp only [release, h, hr1, if_false]
  rw [lookupEntry_map_self fp
    (fun e => { e with refCount := e.refCount - 1 }) (fun _ => rfl) s.entries, h]
  rfl

/-- The release that drives refCount from 1 to 0 removes the entry. -/
theorem release_removes_lookup (fp : Fingerprint) (b : Nat) (s : CacheState)
    (h : lookupEntry fp s.entries =
      some { fingerprint := fp, bundleId := b, refCount := 1 }) :
    lookupEntry fp (release fp s).entries = none := by
  simp only [release, h, le_refl, if_true]
  exact lookupEntry_filter_self fp s.entries

/-- Releasing `j ≤ r` times from an entry with refCount `r ≥ 1` leaves
refCount `r - j` while `j < r` and removes the entry exactly at `j = r`. -/
theorem releaseN_lookup (fp : Fingerprint) (b : Nat) :
    ∀ (j r : Nat) (s : CacheState), 1 ≤ r → j ≤ r →
      lookupEntry fp s.entries =
        some { fingerprint := fp, bundleId := b, refCount := r } →
      (j < r →
        lookupEntry fp (releaseN fp j s).entries =
          some { fingerprint := fp, bundleId := b, refCount := r - j }) ∧
      (j = r → lookupEntry fp (releaseN fp j s).entries = none) := by
  intro j
  induction j with
  | zero =>
    intro r s h1 _ h
    constructor
    · intro _; simpa using h
    · intro h0; omega
  | succ j ih =>
    intro r s h1 hle h
    show (_ → lookupEntry fp (releaseN fp j (release fp s)).entries = _) ∧ _
    by_cases hr2 : 2 ≤ r
    · have hdec := release_dec_lookup fp b r s h hr2
      have := ih (r - 1) (release fp s) (by omega) (by omega) hdec
      constructor
      · intro hlt
        have := this.1 (by omega)
        rw [this]
        congr 2
        omega
      · intro heq
        exact this.2 (by omega)
    · have hr1 : r = 1 := by omega
      have hj0 : j = 0 := by omega
      subst hr1 hj0
      have hrm := release_removes_lookup fp b s h
      constructor
      · intro hlt; omega
      · intro _; simpa [releaseN] using hrm

/-- After at least one acquisition from a state with no entry for the
fingerprint, the entry holds the first freshly allocated bundle and a
refCount equal to the number of acquisitions. -/
theorem acquireN_fresh_lookup (c : CedrosConfig) (s0 : CacheState)
    (h : lookupEntry (fingerprintOf c) s0.entries = none) (m : Nat) :
    lookupEntry (fingerprintOf c) (acquireN c (m + 1) s0).entries =
      some { fingerprint := fingerprintOf c, bundleId := s0.nextBundleId
             refCount := m + 1 } := by
  show lookupEntry _ (acquireN c m (acquire c s0).2).entries = _
  have h1 := acquire_fresh_lookup c s0 h
  have h2 := acquireN_lookup c s0.nextBundleId m 1 (acquire c s0).2 h1
  rw [h2]
  simp [Nat.add_comm]

/-- **C1** (invariants): for every fingerprint and every sequence of `N`
acquire calls on that fingerprint followed by `N` release calls, the
ManagerCache's entry for that fingerprint has refCount equal to
acquires-minus-releases after each step, and the entry is removed exactly
when (and never before) the last release drives refCount to 0,
synchronously with that release. -/
theorem managerCache_refcount_lifecycle (c : CedrosConfig) (s0 : CacheState)
    (h : lookupEntry (fingerprintOf c) s0.entries = none) (N : Nat) :
    (∀ k, k ≤ N →
      refCountOf (fingerprintOf c) (acquireN c k s0) = k ∧
      (hasEntry (fingerprintOf c) (acquireN c k s0) = true ↔ 0 < k)) ∧
    (∀ j, j ≤ N →
      refCountOf (fingerprintOf c)
          (releaseN (fingerprintOf c) j (acquireN c N s0)) = N - j ∧
      (hasEntry (fingerprintOf c)
          (releaseN (fingerprintOf c) j (acquireN c N s0)) = true ↔
        j < N)) := by
  constructor
  · intro k _
    match k with
    | 0 => simp [refCountOf, hasEntry, acquireN, h]
    | m + 1 =>
      have hl := acquireN_fresh_lookup c s0 h m
      simp [refCountOf, hasEntry, hl]
  · intro j hj
    match N, hj with
    | 0, hj =>
      have hj0 : j = 0 := by omega
      subst hj0
      simp [refCountOf, hasEntry, acquireN, releaseN, h]
    | n + 1, hj =>
      have hl := acquireN_fresh_lookup c s0 h n
      have hr := releaseN_lookup (fingerprintOf c) s0.nextBundleId j (n + 1)
        (acquireN c (n + 1) s0) (by omega) hj hl
      by_cases hlt : j < n + 1
      · have := hr.1 hlt
        simp [refCountOf, hasEntry, this, hlt]
      · have hjn : j = n + 1 := by omega
        have := hr.2 hjn
        simp only [refCountOf, hasEntry, this, Option.isSome_none]
        exact ⟨by omega, by simp [hlt]⟩

/-- Witness for C1: three acquisitions then three releases on a concrete
configuration drive the refCount 3 → 2 → 1 → 0, with the entry present
after the second release and removed exactly at the third. -/
theorem managerCache_refcount_lifecycle_witness :
    refCountOf
        (fingerprintOf
          { stripePublicKey := "pk_test_123"
            serverUrl := "http://localhost:8080"
            solanaCluster := "devnet" })
        (releaseN
          (fingerprintOf
            { stripePublicKey := "pk_test_123"
              serverUrl := "http://localhost:8080"
              solanaCluster := "devnet" }) 2
          (acquireN
            { stripePublicKey := "pk_test_123"
              serverUrl := "http://localhost:8080"
              solanaCluster := "devnet" } 3 CacheState.empty)) = 1 ∧
    hasEntry
        (fingerprintOf
          { stripePublicKey := "pk_test_123"
            serverUrl := "http://localhost:8080"
            solanaCluster := "devnet" })
        (releaseN
          (fingerprintOf
            { stripePublicKey := "pk_test_123"
              serverUrl := "http://localhost:8080"
              solanaCluster := "devnet" }) 3
          (acquireN
            { stripePublicKey := "pk_test_123"
              serverUrl := "http://localhost:8080"
              solanaCluster := "devnet" } 3 CacheState.empty)) = false := by
  have H := managerCache_refcount_lifecycle
    { stripePublicKey := "pk_test_123"
      serverUrl := "http://localhost:8080"
      solanaCluster := "devnet" } CacheState.empty rfl 3
  refine ⟨by simpa using (H.2 2 (by omega)).1, ?_⟩
  have h3 := (H.2 3 (by omega)).2
  exact Bool.eq_false_iff.mpr (fun hE => absurd (h3.mp hE) (by omega))

/-- **C2** (functional correctness): for every pair of acquisitions from
the ManagerCache, if the two configurations produce the same fingerprint
then the returned manager bundles are reference-equal (the same shared
instances), and if the fingerprints differ (e.g. different
`stripePublicKey` or `serverUrl`) the returned bundles are not
reference-equal.  Bundle identity is the allocation index `bundleId`. -/
theorem managerCache_sharing_by_fingerprint (s : CacheState)
    (c1 c2 : CedrosConfig) (hwf : CacheWF s) :
    ((fingerprintOf c1 = fingerprintOf c2 →
        (acquire c2 (acquire c1 s).2).1 = (acquire c1 s).1) ∧
      (fingerprintOf c1 ≠ fingerprintOf c2 →
        (acquire c2 (acquire c1 s).2).1 ≠ (acquire c1 s).1)) ∧
    (c1.stripePublicKey ≠ c2.stripePublicKey ∨ c1.serverUrl ≠ c2.serverUrl →
      fingerprintOf c1 ≠ fingerprintOf c2) := by
  obtain ⟨hbound, hnodupB, _⟩ := hwf
  constructor
  · cases hl1 : lookupEntry (fingerprintOf c1) s.entries with
    | some e1 =>
      have he1fp : e1.fingerprint = fingerprintOf c1 :=
        (lookupEntry_some_props _ _ _ hl1).1
      have he1mem : e1 ∈ s.entries := (lookupEntry_some_props _ _ _ hl1).2
      have ha1 : acquire c1 s =
          (e1.bundleId,
            { entries := bumpEntry (fingerprintOf c1) s.entries
              nextBundleId := s.nextBundleId }) := by
        simp [acquire, hl1]
      constructor
      · intro heq
        rw [ha1]
        show (acquire c2 _).1 = e1.bundleId
        have : lookupEntry (fingerprintOf c2)
            (bumpEntry (fingerprintOf c1) s.entries) =
            some { e1 with refCount := e1.refCount + 1 } := by
          rw [← heq, lookupEntry_bump_self, hl1]
          rfl
        simp [acquire, this]
      · intro hne
        rw [ha1]
        show (acquire c2 _).1 ≠ e1.bundleId
        have hother : lookupEntry (fingerprintOf c2)
            (bumpEntry (fingerprintOf c1) s.entries) =
            lookupEntry (fingerprintOf c2) s.entries := by
          unfold bumpEntry
          exact lookupEntry_map_other (fingerprintOf c1) (fingerprintOf c2)
            (Ne.symm hne) (fun e => { e with refCount := e.refCount + 1 })
            (fun _ => rfl) s.entries
        cases hl2 : lookupEntry (fingerprintOf c2) s.entries with
        | some e2 =>
          have he2fp : e2.fingerprint = fingerprintOf c2 :=
            (lookupEntry_some_props _ _ _ hl2).1
          have he2mem : e2 ∈ s.entries := (lookupEntry_some_props _ _ _ hl2).2
          have : (acquire c2
              ({ entries := bumpEntry (fingerprintOf c1) s.entries
                 nextBundleId := s.nextBundleId } : CacheState)).1 =
              e2.bundleId := by
            simp [acquire, hother, hl2]
          rw [this]
          intro hb
          have he12 : e2 = e1 :=
            List.inj_on_of_nodup_map hnodupB he2mem he1mem hb
          exact hne (he1fp ▸ he2fp ▸ he12 ▸ rfl)
        | none =>
          have : (acquire c2
              ({ entries := bumpEntry (fingerprintOf c1) s.entries
                 nextBundleId := s.nextBundleId } : CacheState)).1 =
              s.nextBundleId := by
            simp [acquire, hother, hl2]
          rw [this]
          have := hbound e1 he1mem
          omega
    | none =>
      have ha1 : acquire c1 s =
          (s.nextBundleId,
            { entries := s.entries ++
                [{ fingerprint := fingerprintOf c1
                   bundleId := s.nextBundleId, refCount := 1 }]
              nextBundleId := s.nextBundleId + 1 }) := by
        simp [acquire, hl1]
      constructor
      · intro heq
        rw [ha1]
        show (acquire c2 _).1 = s.nextBundleId
        have : lookupEntry (fingerprintOf c2)
            (s.entries ++
              [{ fingerprint := fingerprintOf c1
                 bundleId := s.nextBundleId, refCount := 1 }]) =
            some { fingerprint := fingerprintOf c1
                   bundleId := s.nextBundleId, refCount := 1 } := by
          rw [← heq]
          exact lookupEntry_append_single _ _ _ hl1 rfl
        simp [acquire, this]
      · intro hne
        rw [ha1]
        show (acquire c2 _).1 ≠ s.nextBundleId
        have hother : lookupEntry (fingerprintOf c2)
            (s.entries ++
              [{ fingerprint := fingerprintOf c1
                 bundleId := s.nextBundleId, refCount := 1 }]) =
            lookupEntry (fingerprintOf c2) s.entries :=
          lookupEntry_append_single_other _ _ _ hne
        cases hl2 : lookupEntry (fingerprintOf c2) s.entries with
        | some e2 =>
          have he2mem : e2 ∈ s.entries := (lookupEntry_some_props _ _ _ hl2).2
          have : (acquire c2
              ({ entries := s.entries ++
                   [{ fingerprint := fingerprintOf c1
                      bundleId := s.nextBundleId, refCount := 1 }]
                 nextBundleId := s.nextBundleId + 1 } : CacheState)).1 =
              e2.bundleId := by
            simp [acquire, hother, hl2]
          rw [this]
          have := hbound e2 he2mem
          omega
        | none =>
          have : (acquire c2
              ({ entries := s.entries ++
                   [{ fingerprint := fingerprintOf c1
                      bundleId := s.nextBundleId, refCount := 1 }]
                 nextBundleId := s.nextBundleId + 1 } : CacheState)).1 =
              s.nextBundleId + 1 := by
            simp [acquire, hother, hl2]
          rw [this]
          omega
  · intro hor heqf
    cases hor with
    | inl hpk => exact hpk (congrArg Fingerprint.stripePublicKey heqf)
    | inr hurl => exact hurl (congrArg Fingerprint.serverUrl heqf)

/-- Witness for C2: on the empty cache, a second acquisition with the same
concrete configuration returns the same bundle, and an acquisition with a
different `stripePublicKey` returns a different bundle. -/
theorem managerCache_sharing_by_fingerprint_witness :
    (acquire
        { stripePublicKey := "pk_test_123"
          serverUrl := "http://localhost:8080", solanaCluster := "devnet" }
        (acquire
          { stripePublicKey := "pk_test_123"
            serverUrl := "http://localhost:8080", solanaCluster := "devnet" }
          CacheState.empty).2).1 =
      (acquire
        { stripePublicKey := "pk_test_123"
          serverUrl := "http://localhost:8080", solanaCluster := "devnet" }
        CacheState.empty).1 ∧
    (acquire
        { stripePublicKey := "pk_test_456"
          serverUrl := "http://localhost:8080", solanaCluster := "devnet" }
        (acquire
          { stripePublicKey := "pk_test_123"
            serverUrl := "http://localhost:8080", solanaCluster := "devnet" }
          CacheState.empty).2).1 ≠
      (acquire
        { stripePublicKey := "pk_test_123"
          serverUrl := "http://localhost:8080", solanaCluster := "devnet" }
        CacheState.empty).1 := by
  constructor
  · exact (managerCache_sharing_by_fingerprint CacheState.empty
      { stripePublicKey := "pk_test_123"
        serverUrl := "http://localhost:8080", solanaCluster := "devnet" }
      { stripePublicKey := "pk_test_123"
        serverUrl := "http://localhost:8080", solanaCluster := "devnet" }
      ⟨by simp [CacheState.empty], by simp [CacheState.empty],
        by simp [CacheState.empty]⟩).1.1 rfl
  · exact (managerCache_sharing_by_fingerprint CacheState.empty
      { stripePublicKey := "pk_test_123"
        serverUrl := "http://localhost:8080", solanaCluster := "devnet" }
      { stripePublicKey := "pk_test_456"
        serverUrl := "http://localhost:8080", solanaCluster := "devnet" }
      ⟨by simp [CacheState.empty], by simp [CacheState.empty],
        by simp [CacheState.empty]⟩).1.2 (by decide)

/-- **C3** (invariants): for every two separate WalletPool `create()`
calls, even with an identical configuration, the resulting pools are not
reference-equal, have distinct ids, and share no adapter instance; and for
every single pool, two calls to `getAdapters()` within the pool's lifetime
return the same array reference (same array identity, same elements, with
nothing regenerated). -/
theorem walletPool_isolation_and_stability (g : PoolGen) :
    ((createWalletPool g).1.id ≠
        (createWalletPool (createWalletPool g).2).1.id) ∧
    ((createWalletPool g).1 ≠ (createWalletPool (createWalletPool g).2).1) ∧
    (∀ a1 ∈ (createWalletPool g).1.adapters,
      ∀ a2 ∈ (createWalletPool (createWalletPool g).2).1.adapters,
        a1.instanceId ≠ a2.instanceId) ∧
    (∀ (p : WalletPool) (g' : PoolGen),
      (getAdapters p (getAdapters p g').2).1 = (getAdapters p g').1 ∧
      (getAdapters p g').2 = g') := by
  refine ⟨?_, ?_, ?_, fun p g' => ⟨rfl, rfl⟩⟩
  · show g.next ≠ (createWalletPool g).2.next
    simp only [createWalletPool, defaultAdapterNames]
    omega
  · intro h
    have hid := congrArg WalletPool.id h
    simp only [createWalletPool, defaultAdapterNames] at hid
    omega
  · intro a1 h1 a2 h2
    simp only [createWalletPool, defaultAdapterNames, List.enum,
      List.enumFrom, List.map_cons, List.map_nil, List.mem_cons,
      List.not_mem_nil, or_false] at h1 h2
    rcases h1 with h1 | h1 <;> rcases h2 with h2 | h2 <;>
      subst h1 <;> subst h2 <;> simp

/-- Witness for C3: two pools created in sequence from a concrete generator
state have different ids, and their concrete Phantom adapter instances are
distinct. -/
theorem walletPool_isolation_and_stability_witness :
    ((createWalletPool { next := 0 }).1.id ≠
      (createWalletPool (createWalletPool { next := 0 }).2).1.id) ∧
    ({ instanceId := 2, name := "Phantom" } : WalletAdapter).instanceId ≠
      ({ instanceId := 6, name := "Phantom" } : WalletAdapter).instanceId :=
  ⟨(walletPool_isolation_and_stability { next := 0 }).1,
    (walletPool_isolation_and_stability { next := 0 }).2.2.1
      { instanceId := 2, name := "Phantom" } (by decide)
      { instanceId := 6, name := "Phantom" } (by decide)⟩

/-! # Lemmas: circuit breaker -/

theorem cbFailStep_closed (cfg : CircuitBreakerConfig) (now f o : Nat) :
    cbFailStep cfg now
      { state := .closed, consecutiveFailures := f, openedAt := o } =
      (if cfg.failureThreshold ≤ f + 1 then
        { state := .open, consecutiveFailures := f + 1, openedAt := now }
      else
        { state := .closed, consecutiveFailures := f + 1, openedAt := o }) := by
  simp [cbFailStep, cbExecute, cbAdmits, cbAfter, cbFailingOp, Except.isOk, Except.toBool]

/-- From a pristine breaker, `k ≤ threshold` consecutive failures leave the
breaker closed with failure count `k` while `k < threshold`, and open it
(with `openedAt = now`) exactly when `k` reaches the threshold. -/
theorem cbFailN_initial (cfg : CircuitBreakerConfig)
    (hT : 0 < cfg.failureThreshold) (now : Nat) :
    ∀ k, k ≤ cfg.failureThreshold →
      cbFailN cfg now k CircuitBreakerState.initial =
        (if k < cfg.failureThreshold then
          { state := .closed, consecutiveFailures := k, openedAt := 0 }
        else
          { state := .open, consecutiveFailures := cfg.failureThreshold
            openedAt := now }) := by
  intro k
  induction k with
  | zero =>
    intro _
    simp only [cbFailN, CircuitBreakerState.initial, if_pos hT]
  | succ k ih =>
    intro hk
    have hklt : k < cfg.failureThreshold := by omega
    show cbFailStep cfg now (cbFailN cfg now k CircuitBreakerState.initial) = _
    rw [ih (by omega), if_pos hklt, cbFailStep_closed]
    by_cases hk1 : k + 1 < cfg.failureThreshold
    · rw [if_neg (by omega), if_pos hk1]
    · have : k + 1 = cfg.failureThreshold := by omega
      rw [if_pos (by omega), if_neg hk1, this]

/-- **C4** (invariants): for the circuit breaker state machine with
configured threshold `T` and timeout `D`: once `T` consecutive failures
have occurred the breaker is open and the next `execute` call fails
immediately with a circuit-open error without invoking the wrapped
operation; after `D` has elapsed since opening exactly one trial call is
allowed through, and the breaker transitions to closed on trial success or
back to open on trial failure (so that a further call arriving before the
next cool-down has elapsed is again rejected without invocation). -/
theorem circuitBreaker_threshold_and_trial (cfg : CircuitBreakerConfig)
    (hT : 0 < cfg.failureThreshold) (now : Nat) :
    (cbFailN cfg now cfg.failureThreshold CircuitBreakerState.initial).state
        = .open ∧
    (cbFailN cfg now cfg.failureThreshold
        CircuitBreakerState.initial).openedAt = now ∧
    (∀ (op : Unit → Except PayError Unit × Unit × List Event) (t : Nat),
      t < now + cfg.timeout →
      (cbExecute cfg
          (cbFailN cfg now cfg.failureThreshold CircuitBreakerState.initial)
          t op ()).invoked = false ∧
      (cbExecute cfg
          (cbFailN cfg now cfg.failureThreshold CircuitBreakerState.initial)
          t op ()).result =
        .error (.circuitOpen "Circuit breaker is open") ∧
      (cbExecute cfg
          (cbFailN cfg now cfg.failureThreshold CircuitBreakerState.initial)
          t op ()).trace = [.breakerRejected]) ∧
    (∀ t : Nat, now + cfg.timeout ≤ t →
      (cbExecute cfg
          (cbFailN cfg now cfg.failureThreshold CircuitBreakerState.initial)
          t cbSucceedingOp ()).invoked = true ∧
      (cbExecute cfg
          (cbFailN cfg now cfg.failureThreshold CircuitBreakerState.initial)
          t cbSucceedingOp ()).breaker.state = .closed ∧
      (cbExecute cfg
          (cbFailN cfg now cfg.failureThreshold CircuitBreakerState.initial)
          t cbFailingOp ()).invoked = true ∧
      (cbExecute cfg
          (cbFailN cfg now cfg.failureThreshold CircuitBreakerState.initial)
          t cbFailingOp ()).breaker.state = .open ∧
      (cbExecute cfg
          (cbFailN cfg now cfg.failureThreshold CircuitBreakerState.initial)
          t cbFailingOp ()).breaker.openedAt = t ∧
      (∀ t' : Nat, t' < t + cfg.timeout →
        (cbExecute cfg
            (cbExecute cfg
              (cbFailN cfg now cfg.failureThreshold
                CircuitBreakerState.initial)
              t cbFailingOp ()).breaker t' cbFailingOp ()).invoked =
          false)) := by
  have hs : cbFailN cfg now cfg.failureThreshold CircuitBreakerState.initial =
      { state := .open, consecutiveFailures := cfg.failureThreshold
        openedAt := now } := by
    rw [cbFailN_initial cfg hT now cfg.failureThreshold (by omega)]
    simp
  rw [hs]
  refine ⟨rfl, rfl, ?_, ?_⟩
  · intro op t ht
    have hadm : cbAdmits cfg
        { state := .open, consecutiveFailures := cfg.failureThreshold
          openedAt := now } t = false := by
      simp [cbAdmits]
      omega
    simp [cbExecute, hadm]
  · intro t ht
    have hadm : cbAdmits cfg
        { state := .open, consecutiveFailures := cfg.failureThreshold
          openedAt := now } t = true := by
      simp [cbAdmits]
      omega
    refine ⟨?_, ?_, ?_, ?_, ?_, ?_⟩
    · simp [cbExecute, hadm]
    · simp [cbExecute, hadm, cbSucceedingOp, cbAfter, Except.isOk, Except.toBool]
    · simp [cbExecute, hadm]
    · simp [cbExecute, hadm, cbFailingOp, cbAfter, Except.isOk, Except.toBool]
    · simp [cbExecute, hadm, cbFailingOp, cbAfter, Except.isOk, Except.toBool]
    · intro t' ht'
      have hb : (cbExecute cfg
          { state := .open, consecutiveFailures := cfg.failureThreshold
            openedAt := now } t cbFailingOp ()).breaker =
          { state := .open, consecutiveFailures := cfg.failureThreshold
            openedAt := t } := by
        simp [cbExecute, hadm, cbFailingOp, cbAfter, Except.isOk, Except.toBool]
      rw [hb]
      have hadm' : cbAdmits cfg
          { state := .open, consecutiveFailures := cfg.failureThreshold
            openedAt := t } t' = false := by
        simp [cbAdmits]
        omega
      simp [cbExecute, hadm']

/-- Witness for C4: with the `StripeManager` breaker configuration
(threshold 5, timeout 10000 ms), five consecutive failures at time 0 open
the breaker; a call at time 5000 is rejected without invocation; the trial
at time 10000 is invoked and closes the breaker on success. -/
theorem circuitBreaker_threshold_and_trial_witness :
    (cbExecute stripeManagerBreakerConfig
        (cbFailN stripeManagerBreakerConfig 0
          stripeManagerBreakerConfig.failureThreshold
          CircuitBreakerState.initial) 5000 cbFailingOp ()).invoked =
      false ∧
    (cbExecute stripeManagerBreakerConfig
        (cbFailN stripeManagerBreakerConfig 0
          stripeManagerBreakerConfig.failureThreshold
          CircuitBreakerState.initial) 10000 cbSucceedingOp
        ()).breaker.state = .closed := by
  have H := circuitBreaker_threshold_and_trial stripeManagerBreakerConfig
    (by decide) 0
  exact ⟨(H.2.2.1 cbFailingOp 5000 (by decide)).1,
    (H.2.2.2 10000 (by decide)).2.1⟩

/-! # Lemmas: resilience composition in `StripeManager` -/

theorem cbExecute_of_not_admits {σ α : Type} (cfg : CircuitBreakerConfig)
    (cb : CircuitBreakerState) (now : Nat)
    (op : σ → Except PayError α × σ × List Event) (st : σ)
    (h : cbAdmits cfg cb now = false) :
    cbExecute cfg cb now op st =
      { result := .error (.circuitOpen "Circuit breaker is open")
        breaker := cb, inner := st, trace := [.breakerRejected]
        invoked := false } := by
  simp [cbExecute, h]

theorem cbExecute_trace_of_admits {σ α : Type} (cfg : CircuitBreakerConfig)
    (cb : CircuitBreakerState) (now : Nat)
    (op : σ → Except PayError α × σ × List Event) (st : σ)
    (h : cbAdmits cfg cb now = true) :
    (cbExecute cfg cb now op st).trace =
      .breakerInvoke :: (op st).2.2 := by
  rcases hop : op st with ⟨r, st', tr⟩
  simp [cbExecute, h, hop]

theorem cbExecute_result_of_admits {σ α : Type} (cfg : CircuitBreakerConfig)
    (cb : CircuitBreakerState) (now : Nat)
    (op : σ → Except PayError α × σ × List Event) (st : σ)
    (h : cbAdmits cfg cb now = true) :
    (cbExecute cfg cb now op st).result = (op st).1 := by
  rcases hop : op st with ⟨r, st', tr⟩
  simp [cbExecute, h, hop]

theorem buildUrl_trace_inner (serverUrl : String) (rs : RouteState)
    (probeAnswer : Except PayError String) (path : String) :
    ∀ e ∈ (buildUrl serverUrl rs probeAnswer path).2.2, e.isInner = true := by
  cases hd : rs.discovered with
  | some mount => simp [buildUrl, hd]
  | none =>
    cases probeAnswer with
    | ok mount => simp [buildUrl, hd, Event.isInner]
    | error e => simp [buildUrl, hd, Event.isInner]

theorem createSessionAttempt_trace_inner (cfg : StripeManagerConfig)
    (w : StripeWorld) (i : Nat) (a : AttemptState) :
    ∀ e ∈ (createSessionAttempt cfg w i a).2.2, e.isInner = true := by
  intro e he
  have hb := buildUrl_trace_inner cfg.serverUrl a.routes w.probeAnswer
    "/paywall/v1/stripe-session"
  rcases hurl : buildUrl cfg.serverUrl a.routes w.probeAnswer
      "/paywall/v1/stripe-session" with ⟨urlRes, routes', trUrl⟩
  rw [hurl] at hb
  simp only [createSessionAttempt, hurl] at he
  cases urlRes with
  | error err => exact hb e he
  | ok url =>
    cases hans : w.sessionAnswer i with
    | ok body =>
      rw [hans] at he
      simp only [List.mem_append, List.mem_singleton] at he
      rcases he with he | he
      · exact hb e he
      · subst he; rfl
    | error err =>
      rw [hans] at he
      simp only [List.mem_append, List.mem_singleton] at he
      rcases he with he | he
      · exact hb e he
      · subst he; rfl

theorem cartCheckoutAttempt_trace_inner (cfg : StripeManagerConfig)
    (w : StripeWorld) (i : Nat) (a : AttemptState) :
    ∀ e ∈ (cartCheckoutAttempt cfg w i a).2.2, e.isInner = true := by
  intro e he
  have hb := buildUrl_trace_inner cfg.serverUrl a.routes w.probeAnswer
    "/paywall/v1/cart/checkout"
  rcases hurl : buildUrl cfg.serverUrl a.routes w.probeAnswer
      "/paywall/v1/cart/checkout" with ⟨urlRes, routes', trUrl⟩
  rw [hurl] at hb
  simp only [cartCheckoutAttempt, hurl] at he
  cases urlRes with
  | error err => exact hb e he
  | ok url =>
    cases hans : w.sessionAnswer i with
    | ok body =>
      rw [hans] at he
      simp only [List.mem_append, List.mem_singleton] at he
      rcases he with he | he
      · exact hb e he
      · subst he; rfl
    | error err =>
      rw [hans] at he
      simp only [List.mem_append, List.mem_singleton] at he
      rcases he with he | he
      · exact hb e he
      · subst he; rfl

theorem retryLoop_trace_inner {σ α : Type}
    (att : Nat → σ → Except PayError α × σ × List Event)
    (h : ∀ i st, ∀ e ∈ (att i st).2.2, e.isInner = true) :
    ∀ (fuel i : Nat) (st : σ), ∀ e ∈ (retryLoop att fuel i st).2.2,
      e.isInner = true := by
  intro fuel
  induction fuel with
  | zero => intro i st e he; simp [retryLoop] at he
  | succ fuel ih =>
    intro i st e he
    have hatt := h i st
    rcases ha : att i st with ⟨r, st', tr⟩
    rw [ha] at hatt
    simp only [retryLoop, ha] at he
    cases r with
    | ok a =>
      simp only [List.mem_cons] at he
      rcases he with he | he
      · subst he; rfl
      · exact hatt e he
    | error err =>
      rcases hrec : retryLoop att fuel (i + 1) st' with ⟨r2, st2, tr2⟩
      by_cases hcond : isRetryableError err = true ∧ 0 < fuel
      · simp only [hrec, if_pos hcond, List.cons_append, List.mem_cons,
          List.mem_append] at he
        rcases he with he | he | he
        · subst he; rfl
        · exact hatt e he
        · have := ih (i + 1) st' e
          rw [hrec] at this
          exact this he
      · simp only [if_neg hcond, List.mem_cons] at he
        rcases he with he | he
        · subst he; rfl
        · exact hatt e he

theorem retryWithBackoff_trace_inner {σ α : Type} (cfg : RetryConfig)
    (att : Nat → σ → Except PayError α × σ × List Event)
    (h : ∀ i st, ∀ e ∈ (att i st).2.2, e.isInner = true) (st : σ) :
    ∀ e ∈ (retryWithBackoff cfg att st).2.2, e.isInner = true :=
  retryLoop_trace_inner att h cfg.maxAttempts 0 st

theorem redirectToCheckout_trace (s : StripeManagerState) (w : StripeWorld)
    (sessionId : String) :
    (redirectToCheckout s w sessionId).2.2 = [] ∨
      (redirectToCheckout s w sessionId).2.2 =
        [.redirectCall sessionId] := by
  unfold redirectToCheckout
  rcases hinit : (if s.stripeLoaded then ((.ok () : Except PayError Unit), s)
      else initStripe s w) with ⟨initRes, s₁⟩
  cases initRes with
  | error e => simp
  | ok u =>
    by_cases hL : s₁.stripeLoaded
    · cases hre : w.redirectError with
      | some msg => simp [hL, hre]
      | none => simp [hL, hre]
    · simp [hL]

theorem redirectToCheckout_trace_mem (s : StripeManagerState)
    (w : StripeWorld) (sessionId : String) :
    ∀ e ∈ (redirectToCheckout s w sessionId).2.2,
      e = .redirectCall sessionId := by
  rcases redirectToCheckout_trace s w sessionId with h | h <;> rw [h] <;> simp

theorem retryPrecedesNetwork_nil : retryPrecedesNetwork [] := by
  intro k hk
  exact absurd hk (Nat.not_lt_zero k)

/-- A trace that opens with a retry attempt satisfies the
retry-before-network ordering: the attempt at index 0 precedes every
later event. -/
theorem retryPrecedesNetwork_cons_retry (i : Nat) (tail : List Event) :
    retryPrecedesNetwork (Event.retryAttempt i :: tail) := by
  intro k hk hpost
  cases k with
  | zero =>
    have h0 : (Event.retryAttempt i :: tail).get ⟨0, hk⟩ =
        Event.retryAttempt i := rfl
    rw [h0] at hpost
    simp [Event.isNetworkPost] at hpost
  | succ k =>
    exact ⟨0, Nat.succ_pos tail.length, Nat.succ_pos k, i, rfl⟩

/-- A trace without any network POST satisfies the ordering vacuously. -/
theorem retryPrecedesNetwork_of_no_network (tr : List Event)
    (h : ∀ e ∈ tr, e.isNetworkPost = false) : retryPrecedesNetwork tr := by
  intro k hk hpost
  rw [h (tr.get ⟨k, hk⟩) (tr.get_mem k hk)] at hpost
  cases hpost

/-- The retry loop's trace is empty (attempt budget 0) or opens with the
retry-attempt event of its first attempt — every other event it emits
comes after that attempt has begun. -/
theorem retryLoop_trace_head {σ α : Type}
    (att : Nat → σ → Except PayError α × σ × List Event)
    (fuel i : Nat) (st : σ) :
    (retryLoop att fuel i st).2.2 = [] ∨
      ∃ tail, (retryLoop att fuel i st).2.2 =
        Event.retryAttempt i :: tail := by
  cases fuel with
  | zero => exact Or.inl rfl
  | succ m =>
    right
    rcases ha : att i st with ⟨r, st', tr⟩
    cases r with
    | ok a => exact ⟨tr, by simp only [retryLoop, ha]⟩
    | error e =>
      by_cases hcond : isRetryableError e = true ∧ 0 < m
      · rcases hrec : retryLoop att m (i + 1) st' with ⟨r2, st2, tr2⟩
        refine ⟨tr ++ tr2, ?_⟩
        simp only [retryLoop, ha, hrec, if_pos hcond, List.cons_append]
      · exact ⟨tr, by simp only [retryLoop, ha, if_neg hcond]⟩

theorem retryWithBackoff_retryPrecedesNetwork {σ α : Type}
    (cfg : RetryConfig)
    (att : Nat → σ → Except PayError α × σ × List Event) (st : σ) :
    retryPrecedesNetwork (retryWithBackoff cfg att st).2.2 := by
  rcases retryLoop_trace_head att cfg.maxAttempts 0 st with h | ⟨tail, h⟩
  · unfold retryWithBackoff
    rw [h]
    exact retryPrecedesNetwork_nil
  · unfold retryWithBackoff
    rw [h]
    exact retryPrecedesNetwork_cons_retry 0 tail

theorem cbExecute_of_admits {σ α : Type} (cfg : CircuitBreakerConfig)
    (cb : CircuitBreakerState) (now : Nat)
    (op : σ → Except PayError α × σ × List Event) (st : σ)
    (h : cbAdmits cfg cb now = true) :
    cbExecute cfg cb now op st =
      { result := (op st).1
        breaker := cbAfter cfg cb now (op st).1.isOk
        inner := (op st).2.1
        trace := .breakerInvoke :: (op st).2.2
        invoked := true } := by
  rcases hop : op st with ⟨r, st', tr⟩
  simp [cbExecute, h, hop]

/-- **C5** (temporal): for every outbound network call issued by the
manager, the resilience checks happen in the order rate-limit check, then
circuit breaker, then retry-with-backoff, then the network call; in every
execution where the rate limiter rejects, the circuit breaker's state is
not read or modified and no network call is issued, and in every execution
where the breaker rejects as open, the retry loop is never entered.  The
trace characterizations below state this for both `createSession` and
`processCartCheckout`: the first event is always the rate-limit check; on
rejection it is the only event and the breaker state is unchanged; on a
breaker rejection the trace ends at `breakerRejected` with no retry and no
network event; otherwise the breaker invocation precedes every retry
attempt, probe and network POST (the redirect client call of the cart flow
is the only other event), and within the post-breaker trace every network
POST is preceded by a retry-attempt event — the retry loop is entered
before any network call is issued. -/
theorem stripeManager_resilience_order (cfg : StripeManagerConfig)
    (s : StripeManagerState) (now : Nat) (w : StripeWorld)
    (req : StripeSessionRequest) (opts : ProcessCartCheckoutOptions) :
    ((tryConsume cfg.rateLimiter s.rateLimiter now).1 = false →
      (createSession cfg s now w req).2.2 = [.rateLimitCheck false] ∧
      (createSession cfg s now w req).2.1.breaker = s.breaker ∧
      (processCartCheckout cfg s now w opts).2.2 = [.rateLimitCheck false] ∧
      (processCartCheckout cfg s now w opts).2.1.breaker = s.breaker) ∧
    ((tryConsume cfg.rateLimiter s.rateLimiter now).1 = true →
      cbAdmits stripeManagerBreakerConfig s.breaker now = false →
      (createSession cfg s now w req).2.2 =
        [.rateLimitCheck true, .breakerRejected] ∧
      (processCartCheckout cfg s now w opts).2.2 =
        [.rateLimitCheck true, .breakerRejected]) ∧
    ((tryConsume cfg.rateLimiter s.rateLimiter now).1 = true →
      cbAdmits stripeManagerBreakerConfig s.breaker now = true →
      (∃ rest, (createSession cfg s now w req).2.2 =
          .rateLimitCheck true :: .breakerInvoke :: rest ∧
        (∀ e ∈ rest, e.isInner = true) ∧
        retryPrecedesNetwork rest) ∧
      (∃ rest, (processCartCheckout cfg s now w opts).2.2 =
          .rateLimitCheck true :: .breakerInvoke :: rest ∧
        (∀ e ∈ rest, e.isInner = true ∨
          ∃ sid, e = Event.redirectCall sid) ∧
        retryPrecedesNetwork rest)) := by
  rcases ht : tryConsume cfg.rateLimiter s.rateLimiter now with ⟨allowed, rl'⟩
  refine ⟨?_, ?_, ?_⟩
  · intro hfalse
    have hfa : allowed = false := hfalse
    subst hfa
    refine ⟨?_, ?_, ?_, ?_⟩
    · unfold createSession
      rw [ht]
      rfl
    · unfold createSession
      rw [ht]
      rfl
    · unfold processCartCheckout
      rw [ht]
      rfl
    · unfold processCartCheckout
      rw [ht]
      rfl
  · intro htrue hadm
    have hta : allowed = true := htrue
    subst hta
    have hcb1 := cbExecute_of_not_admits stripeManagerBreakerConfig s.breaker
      now (retryWithBackoff cfg.retry (createSessionAttempt cfg w))
      { routes := s.routes, uuidCounter := s.uuidCounter } hadm
    have hcb2 := cbExecute_of_not_admits stripeManagerBreakerConfig s.breaker
      now (retryWithBackoff cfg.retry (cartCheckoutAttempt cfg w))
      { routes := s.routes, uuidCounter := s.uuidCounter } hadm
    constructor
    · unfold createSession
      rw [ht, hcb1]
      rfl
    · unfold processCartCheckout
      rw [ht, hcb2]
      rfl
  · intro htrue hadm
    have hta : allowed = true := htrue
    subst hta
    constructor
    · refine ⟨(retryWithBackoff cfg.retry (createSessionAttempt cfg w)
        { routes := s.routes, uuidCounter := s.uuidCounter }).2.2, ?_, ?_, ?_⟩
      · have htr := cbExecute_trace_of_admits stripeManagerBreakerConfig
          s.breaker now
          (retryWithBackoff cfg.retry (createSessionAttempt cfg w))
          { routes := s.routes, uuidCounter := s.uuidCounter } hadm
        unfold createSession
        rw [ht]
        simp only []
        rw [htr]
        rfl
      · exact retryWithBackoff_trace_inner cfg.retry _
          (fun i a => createSessionAttempt_trace_inner cfg w i a) _
      · exact retryWithBackoff_retryPrecedesNetwork cfg.retry _ _
    · rcases hr : retryWithBackoff cfg.retry (cartCheckoutAttempt cfg w)
        { routes := s.routes, uuidCounter := s.uuidCounter }
        with ⟨rres, rst, rtr⟩
      have hcbfull := cbExecute_of_admits stripeManagerBreakerConfig
        s.breaker now
        (retryWithBackoff cfg.retry (cartCheckoutAttempt cfg w))
        { routes := s.routes, uuidCounter := s.uuidCounter } hadm
      rw [hr] at hcbfull
      have hinner : ∀ e ∈ rtr, e.isInner = true := by
        have hret := retryWithBackoff_trace_inner cfg.retry _
          (fun i a => cartCheckoutAttempt_trace_inner cfg w i a)
          ({ routes := s.routes, uuidCounter := s.uuidCounter } : AttemptState)
        rw [hr] at hret
        exact hret
      have hr2 : retryLoop (cartCheckoutAttempt cfg w) cfg.retry.maxAttempts
          0 ({ routes := s.routes, uuidCounter := s.uuidCounter } :
            AttemptState) = (rres, rst, rtr) := hr
      have hshape : rtr = [] ∨
          ∃ tail, rtr = Event.retryAttempt 0 :: tail := by
        rcases retryLoop_trace_head (cartCheckoutAttempt cfg w)
            cfg.retry.maxAttempts 0
            ({ routes := s.routes, uuidCounter := s.uuidCounter } :
              AttemptState) with h | ⟨tail, h⟩
        · rw [hr2] at h
          exact Or.inl h
        · rw [hr2] at h
          exact Or.inr ⟨tail, h⟩
      have hpn : retryPrecedesNetwork rtr := by
        rcases hshape with h | ⟨tail, h⟩
        · rw [h]
          exact retryPrecedesNetwork_nil
        · rw [h]
          exact retryPrecedesNetwork_cons_retry 0 tail
      unfold processCartCheckout
      rw [ht, hcbfull]
      simp only []
      rw [if_pos trivial]
      cases rres with
      | ok session =>
        simp only []
        split <;>
        · refine ⟨_, rfl, ?_, ?_⟩
          · intro e he
            rcases List.mem_append.mp he with he | he
            · exact Or.inl (hinner e he)
            · exact Or.inr ⟨session.sessionId,
                redirectToCheckout_trace_mem _ w session.sessionId e he⟩
          · rcases hshape with h | ⟨tail, h⟩
            · rw [h]
              refine retryPrecedesNetwork_of_no_network _ (fun e he => ?_)
              rw [redirectToCheckout_trace_mem _ w session.sessionId e
                (by exact he)]
              rfl
            · rw [h]
              exact retryPrecedesNetwork_cons_retry 0 _
      | error err =>
        cases err <;>
          exact ⟨rtr, rfl, fun e he => Or.inl (hinner e he), hpn⟩

/-- Witness for C5: at a concrete rate-limited manager state (empty token
bucket, no refill), `createSession` emits only the failed rate-limit check
and leaves the breaker untouched. -/
theorem stripeManager_resilience_order_witness :
    (createSession
        { publicKey := "pk_test_123", serverUrl := "https://api.example.com"
          rateLimiter := { capacity := 10, refillPerMs := 0 } }
        { stripeLoaded := false
          rateLimiter := { tokens := 0, lastRefillAt := 0 }
          breaker := CircuitBreakerState.initial
          routes := { discovered := some "/api" }, uuidCounter := 0 }
        0
        { probeAnswer := .ok "/api", sessionAnswer := fun _ =>
            .ok { sessionId := "cs_test_123", url := "https://c.example" }
          loadStripeOk := true, redirectError := none }
        { resource := "product-123" }).2.2 = [.rateLimitCheck false] := by
  have H := stripeManager_resilience_order
    { publicKey := "pk_test_123", serverUrl := "https://api.example.com"
      rateLimiter := { capacity := 10, refillPerMs := 0 } }
    { stripeLoaded := false
      rateLimiter := { tokens := 0, lastRefillAt := 0 }
      breaker := CircuitBreakerState.initial
      routes := { discovered := some "/api" }, uuidCounter := 0 }
    0
    { probeAnswer := .ok "/api", sessionAnswer := fun _ =>
        .ok { sessionId := "cs_test_123", url := "https://c.example" }
      loadStripeOk := true, redirectError := none }
    { resource := "product-123" }
    { items := [{ resource := "product-123", quantity := 1 }] }
  exact (H.1 (by
    simp [tryConsume, rlRefill, (show ¬ ((1 : ℚ) ≤ 0) by norm_num)])).1

/-- **C10** (error handling): when the shared rate limiter rejects
(`tryConsume()` returns false), `StripeManager.processCartCheckout`
returns the result object
`{success: false, error: 'Rate limit exceeded for cart checkout. Please
try again later.'}` without issuing any network request or touching the
circuit breaker, whereas `StripeManager.createSession` under the same
precondition instead throws an Error
(`'Rate limit exceeded for Stripe session creation. Please try again
later.'`) — the two public entry points handle the identical rejection
with different error channels. -/
theorem rateLimit_error_channel_asymmetry (cfg : StripeManagerConfig)
    (s : StripeManagerState) (now : Nat) (w : StripeWorld)
    (req : StripeSessionRequest) (opts : ProcessCartCheckoutOptions)
    (h : (tryConsume cfg.rateLimiter s.rateLimiter now).1 = false) :
    (processCartCheckout cfg s now w opts).1 =
      .ok { success := false
            error := some
              "Rate limit exceeded for cart checkout. Please try again later." } ∧
    (processCartCheckout cfg s now w opts).2.2 = [.rateLimitCheck false] ∧
    (processCartCheckout cfg s now w opts).2.1.breaker = s.breaker ∧
    (createSession cfg s now w req).1 =
      .error (.rateLimited
        "Rate limit exceeded for Stripe session creation. Please try again later.") := by
  rcases ht : tryConsume cfg.rateLimiter s.rateLimiter now with ⟨allowed, rl'⟩
  have hfa : allowed = false := by rw [ht] at h; exact h
  subst hfa
  refine ⟨?_, ?_, ?_, ?_⟩
  · unfold processCartCheckout
    rw [ht]
    rfl
  · unfold processCartCheckout
    rw [ht]
    rfl
  · unfold processCartCheckout
    rw [ht]
    rfl
  · unfold createSession
    rw [ht]
    rfl

/-- Witness for C10: at a concrete empty token bucket, the cart entry
point returns the failure result object and `createSession` raises. -/
theorem rateLimit_error_channel_asymmetry_witness :
    (processCartCheckout
        { publicKey := "pk_test_123", serverUrl := "https://api.example.com"
          rateLimiter := { capacity := 10, refillPerMs := 0 } }
        { stripeLoaded := false
          rateLimiter := { tokens := 0, lastRefillAt := 0 }
          breaker := CircuitBreakerState.initial
          routes := { discovered := some "/api" }, uuidCounter := 0 }
        0
        { probeAnswer := .ok "/api", sessionAnswer := fun _ =>
            .ok { sessionId := "cs_test_123", url := "https://c.example" }
          loadStripeOk := true, redirectError := none }
        { items := [{ resource := "product-123", quantity := 1 }] }).1 =
      .ok { success := false
            error := some
              "Rate limit exceeded for cart checkout. Please try again later." } ∧
    (createSession
        { publicKey := "pk_test_123", serverUrl := "https://api.example.com"
          rateLimiter := { capacity := 10, refillPerMs := 0 } }
        { stripeLoaded := false
          rateLimiter := { tokens := 0, lastRefillAt := 0 }
          breaker := CircuitBreakerState.initial
          routes := { discovered := some "/api" }, uuidCounter := 0 }
        0
        { probeAnswer := .ok "/api", sessionAnswer := fun _ =>
            .ok { sessionId := "cs_test_123", url := "https://c.example" }
          loadStripeOk := true, redirectError := none }
        { resource := "product-123" }).1 =
      .error (.rateLimited
        "Rate limit exceeded for Stripe session creation. Please try again later.") := by
  have H := rateLimit_error_channel_asymmetry
    { publicKey := "pk_test_123", serverUrl := "https://api.example.com"
      rateLimiter := { capacity := 10, refillPerMs := 0 } }
    { stripeLoaded := false
      rateLimiter := { tokens := 0, lastRefillAt := 0 }
      breaker := CircuitBreakerState.initial
      routes := { discovered := some "/api" }, uuidCounter := 0 }
    0
    { probeAnswer := .ok "/api", sessionAnswer := fun _ =>
        .ok { sessionId := "cs_test_123", url := "https://c.example" }
      loadStripeOk := true, redirectError := none }
    { resource := "product-123" }
    { items := [{ resource := "product-123", quantity := 1 }] }
    (by simp [tryConsume, rlRefill, (show ¬ ((1 : ℚ) ≤ 0) by norm_num)])
  exact ⟨H.1, H.2.2.2⟩

/-- Counterexample for **C9**: the claim says every public payment entry
point, `createSession` included, returns a success/failure result object
rather than raising.  At this concrete rate-limited input,
`createSession` instead throws (returns an exceptional outcome, modelled
as `Except.error`), so the claim as stated is false. -/
theorem createSession_raises_counterexample :
    (createSession
        { publicKey := "pk_test_123", serverUrl := "https://api.example.com"
          rateLimiter := { capacity := 10, refillPerMs := 0 } }
        { stripeLoaded := false
          rateLimiter := { tokens := 0, lastRefillAt := 0 }
          breaker := CircuitBreakerState.initial
          routes := { discovered := some "/api" }, uuidCounter := 0 }
        0
        { probeAnswer := .ok "/api", sessionAnswer := fun _ =>
            .ok { sessionId := "cs_test_123", url := "https://c.example" }
          loadStripeOk := true, redirectError := none }
        { resource := "product-123" }).1.isOk = false := by
  have ht : tryConsume
      ({ capacity := 10, refillPerMs := 0 } : RateLimiterConfig)
      ({ tokens := 0, lastRefillAt := 0 } : RateLimiterState) 0 =
      (false, { tokens := 0, lastRefillAt := 0 }) := by
    norm_num [tryConsume, rlRefill]
  unfold createSession
  rw [show tryConsume
      ({ publicKey := "pk_test_123", serverUrl := "https://api.example.com"
         rateLimiter := { capacity := 10, refillPerMs := 0 } } :
        StripeManagerConfig).rateLimiter
      ({ stripeLoaded := false
         rateLimiter := { tokens := 0, lastRefillAt := 0 }
         breaker := CircuitBreakerState.initial
         routes := { discovered := some "/api" }, uuidCounter := 0 } :
        StripeManagerState).rateLimiter 0 =
      (false, { tokens := 0, lastRefillAt := 0 }) from ht]
  rfl

/-- **C9** (error handling), amended: the composed public entry points
`processPayment` and `processCartCheckout` always return a success/failure
result object with a checkable `success` flag and never raise — every
thrown failure (rate limit, circuit open, network, initialization) is
caught and converted into a failure result — whereas `createSession`
raises typed errors for its failures (and `redirectToCheckout` can
propagate an initialization failure); callers of the composed entry
points check the flag instead of wrapping calls in exception handling. -/
theorem stripeManager_composed_entry_points_never_raise
    (cfg : StripeManagerConfig) (s : StripeManagerState) (now : Nat)
    (w : StripeWorld) (req : StripeSessionRequest)
    (opts : ProcessCartCheckoutOptions) :
    (processPayment cfg s now w req).1.isOk = true ∧
    (processCartCheckout cfg s now w opts).1.isOk = true := by
  constructor
  · unfold processPayment
    rcases hcs : createSession cfg s now w req with ⟨res, s₁, tr₁⟩
    cases res with
    | error e => rfl
    | ok session =>
      simp only []
      rcases hrd : redirectToCheckout s₁ w session.sessionId
        with ⟨rres, s₂, tr₂⟩
      cases rres with
      | error e => rfl
      | ok r => rfl
  · unfold processCartCheckout
    rcases ht : tryConsume cfg.rateLimiter s.rateLimiter now
      with ⟨allowed, rl'⟩
    cases allowed with
    | false => rfl
    | true =>
      simp only []
      rcases hcb : cbExecute stripeManagerBreakerConfig s.breaker now
        (retryWithBackoff cfg.retry (cartCheckoutAttempt cfg w))
        { routes := s.routes, uuidCounter := s.uuidCounter }
        with ⟨res, cb2, inner2, tr, inv⟩
      cases res with
      | ok session =>
        simp only []
        rcases hrd : redirectToCheckout
            { stripeLoaded := s.stripeLoaded, rateLimiter := rl'
              breaker := cb2, routes := inner2.routes
              uuidCounter := inner2.uuidCounter } w session.sessionId
          with ⟨rres, s₂, tr₂⟩
        cases rres with
        | error e => rfl
        | ok r => rfl
      | error err => cases err <;> rfl

/-! # Lemmas: `createSession` success path -/

/-- With the route mount already discovered and the server answering 200
with `body`, the first attempt POSTs once to the stripe-session URL with
`Content-Type: application/json` and the current counter value as
idempotency key, and bumps the counter. -/
theorem createSessionAttempt_cached (cfg : StripeManagerConfig)
    (w : StripeWorld) (a : AttemptState) (mount : String)
    (body : StripeSessionResponse)
    (hroute : a.routes.discovered = some mount)
    (hans : w.sessionAnswer 0 = .ok body) :
    createSessionAttempt cfg w 0 a =
      (.ok body, { routes := a.routes, uuidCounter := a.uuidCounter + 1 },
        [.networkPost
          (cfg.serverUrl ++ mount ++ "/paywall/v1/stripe-session")
          "application/json" a.uuidCounter]) := by
  unfold createSessionAttempt buildUrl
  rw [hroute, hans]
  rfl

/-- Success-path characterization of `createSession`: the parsed body is
returned unchanged, exactly one network POST happens (with JSON content
type and the current counter as idempotency key), and the counter is
advanced by one while the route cache is untouched. -/
theorem createSession_success_spec (cfg : StripeManagerConfig)
    (s : StripeManagerState) (now : Nat) (w : StripeWorld)
    (req : StripeSessionRequest) (body : StripeSessionResponse)
    (mount : String)
    (ht : (tryConsume cfg.rateLimiter s.rateLimiter now).1 = true)
    (hadm : cbAdmits stripeManagerBreakerConfig s.breaker now = true)
    (hroute : s.routes.discovered = some mount)
    (hans : w.sessionAnswer 0 = .ok body)
    (hmax : 0 < cfg.retry.maxAttempts) :
    (createSession cfg s now w req).1 = .ok body ∧
    (createSession cfg s now w req).2.2.filter Event.isNetworkPost =
      [.networkPost (cfg.serverUrl ++ mount ++ "/paywall/v1/stripe-session")
        "application/json" s.uuidCounter] ∧
    (createSession cfg s now w req).2.1.uuidCounter = s.uuidCounter + 1 ∧
    (createSession cfg s now w req).2.1.routes = s.routes := by
  obtain ⟨m, hm⟩ : ∃ m, cfg.retry.maxAttempts = m + 1 :=
    ⟨cfg.retry.maxAttempts - 1, by omega⟩
  have hatt := createSessionAttempt_cached cfg w
    { routes := s.routes, uuidCounter := s.uuidCounter } mount body hroute hans
  have hretry : retryWithBackoff cfg.retry (createSessionAttempt cfg w)
      { routes := s.routes, uuidCounter := s.uuidCounter } =
      (.ok body, { routes := s.routes, uuidCounter := s.uuidCounter + 1 },
        [.retryAttempt 0,
          .networkPost
            (cfg.serverUrl ++ mount ++ "/paywall/v1/stripe-session")
            "application/json" s.uuidCounter]) := by
    unfold retryWithBackoff
    rw [hm]
    simp only [retryLoop, hatt]
  have hcb := cbExecute_of_admits stripeManagerBreakerConfig s.breaker now
    (retryWithBackoff cfg.retry (createSessionAttempt cfg w))
    { routes := s.routes, uuidCounter := s.uuidCounter } hadm
  rw [hretry] at hcb
  rcases htc : tryConsume cfg.rateLimiter s.rateLimiter now with ⟨allowed, rl'⟩
  have hta : allowed = true := by rw [htc] at ht; exact ht
  subst hta
  refine ⟨?_, ?_, ?_, ?_⟩ <;>
  · unfold createSession
    rw [htc, hcb]
    rfl

/-- **C8** (functional correctness): for every call to
`StripeManager.createSession(request)` where the server responds 200 with
a session object, the call returns exactly that object and issues exactly
one POST to the discovered stripe-session URL with `Content-Type:
application/json` and a present `Idempotency-Key` header; moreover each
separate `createSession` call generates a fresh idempotency key — the
call leaves the key counter advanced, so a second call (from the state the
first left behind) carries a distinct key. -/
theorem createSession_returns_body_and_fresh_key (cfg : StripeManagerConfig)
    (s s₂ : StripeManagerState) (now now₂ : Nat) (w w₂ : StripeWorld)
    (req req₂ : StripeSessionRequest) (body body₂ : StripeSessionResponse)
    (mount : String)
    (ht : (tryConsume cfg.rateLimiter s.rateLimiter now).1 = true)
    (hadm : cbAdmits stripeManagerBreakerConfig s.breaker now = true)
    (hroute : s.routes.discovered = some mount)
    (hans : w.sessionAnswer 0 = .ok body)
    (hmax : 0 < cfg.retry.maxAttempts)
    (hk : s₂.uuidCounter = (createSession cfg s now w req).2.1.uuidCounter)
    (ht₂ : (tryConsume cfg.rateLimiter s₂.rateLimiter now₂).1 = true)
    (hadm₂ : cbAdmits stripeManagerBreakerConfig s₂.breaker now₂ = true)
    (hroute₂ : s₂.routes.discovered = some mount)
    (hans₂ : w₂.sessionAnswer 0 = .ok body₂) :
    (createSession cfg s now w req).1 = .ok body ∧
    (createSession cfg s now w req).2.2.filter Event.isNetworkPost =
      [.networkPost (cfg.serverUrl ++ mount ++ "/paywall/v1/stripe-session")
        "application/json" s.uuidCounter] ∧
    (createSession cfg s₂ now₂ w₂ req₂).2.2.filter Event.isNetworkPost =
      [.networkPost (cfg.serverUrl ++ mount ++ "/paywall/v1/stripe-session")
        "application/json" (s.uuidCounter + 1)] ∧
    s.uuidCounter + 1 ≠ s.uuidCounter := by
  have H1 := createSession_success_spec cfg s now w req body mount
    ht hadm hroute hans hmax
  have H2 := createSession_success_spec cfg s₂ now₂ w₂ req₂ body₂ mount
    ht₂ hadm₂ hroute₂ hans₂ hmax
  have hk' : s₂.uuidCounter = s.uuidCounter + 1 := by
    rw [hk, H1.2.2.1]
  refine ⟨H1.1, H1.2.1, ?_, by omega⟩
  rw [← hk']
  exact H2.2.1

/-- Witness for C8: with a concrete configuration, full token bucket,
closed breaker and cached route, the first call posts key 0 and the
second call (from the state the first left) posts key 1. -/
theorem createSession_returns_body_and_fresh_key_witness :
    (createSession
        { publicKey := "pk_test_123", serverUrl := "https://api.example.com"
          rateLimiter := { capacity := 10, refillPerMs := 0 } }
        { stripeLoaded := false
          rateLimiter := { tokens := 10, lastRefillAt := 0 }
          breaker := CircuitBreakerState.initial
          routes := { discovered := some "/api" }, uuidCounter := 0 }
        0
        { probeAnswer := .ok "/api", sessionAnswer := fun _ =>
            .ok { sessionId := "cs_test_123"
                  url := "https://checkout.stripe.com/test" }
          loadStripeOk := true, redirectError := none }
        { resource := "product-123" }).1 =
      .ok { sessionId := "cs_test_123"
            url := "https://checkout.stripe.com/test" } ∧
    (createSession
        { publicKey := "pk_test_123", serverUrl := "https://api.example.com"
          rateLimiter := { capacity := 10, refillPerMs := 0 } }
        { stripeLoaded := false
          rateLimiter := { tokens := 10, lastRefillAt := 0 }
          breaker := CircuitBreakerState.initial
          routes := { discovered := some "/api" }, uuidCounter := 0 }
        0
        { probeAnswer := .ok "/api", sessionAnswer := fun _ =>
            .ok { sessionId := "cs_test_123"
                  url := "https://checkout.stripe.com/test" }
          loadStripeOk := true, redirectError := none }
        { resource := "product-123" }).2.2.filter Event.isNetworkPost =
      [.networkPost "https://api.example.com/api/paywall/v1/stripe-session"
        "application/json" 0] ∧
    (createSession
        { publicKey := "pk_test_123", serverUrl := "https://api.example.com"
          rateLimiter := { capacity := 10, refillPerMs := 0 } }
        { stripeLoaded := false
          rateLimiter := { tokens := 9, lastRefillAt := 0 }
          breaker := CircuitBreakerState.initial
          routes := { discovered := some "/api" }, uuidCounter := 1 }
        0
        { probeAnswer := .ok "/api", sessionAnswer := fun _ =>
            .ok { sessionId := "cs_test_456"
                  url := "https://checkout.stripe.com/test2" }
          loadStripeOk := true, redirectError := none }
        { resource := "product-456" }).2.2.filter Event.isNetworkPost =
      [.networkPost "https://api.example.com/api/paywall/v1/stripe-session"
        "application/json" 1] ∧
    (0 : Nat) + 1 ≠ 0 := by
  have H := createSession_returns_body_and_fresh_key
    { publicKey := "pk_test_123", serverUrl := "https://api.example.com"
      rateLimiter := { capacity := 10, refillPerMs := 0 } }
    { stripeLoaded := false
      rateLimiter := { tokens := 10, lastRefillAt := 0 }
      breaker := CircuitBreakerState.initial
      routes := { discovered := some "/api" }, uuidCounter := 0 }
    { stripeLoaded := false
      rateLimiter := { tokens := 9, lastRefillAt := 0 }
      breaker := CircuitBreakerState.initial
      routes := { discovered := some "/api" }, uuidCounter := 1 }
    0 0
    { probeAnswer := .ok "/api", sessionAnswer := fun _ =>
        .ok { sessionId := "cs_test_123"
              url := "https://checkout.stripe.com/test" }
      loadStripeOk := true, redirectError := none }
    { probeAnswer := .ok "/api", sessionAnswer := fun _ =>
        .ok { sessionId := "cs_test_456"
              url := "https://checkout.stripe.com/test2" }
      loadStripeOk := true, redirectError := none }
    { resource := "product-123" } { resource := "product-456" }
    { sessionId := "cs_test_123", url := "https://checkout.stripe.com/test" }
    { sessionId := "cs_test_456", url := "https://checkout.stripe.com/test2" }
    "/api"
    (by simp [tryConsume, rlRefill])
    (by decide)
    rfl
    rfl
    (by decide)
    (by
      rw [(createSession_success_spec
        { publicKey := "pk_test_123", serverUrl := "https://api.example.com"
          rateLimiter := { capacity := 10, refillPerMs := 0 } }
        { stripeLoaded := false
          rateLimiter := { tokens := 10, lastRefillAt := 0 }
          breaker := CircuitBreakerState.initial
          routes := { discovered := some "/api" }, uuidCounter := 0 }
        0
        { probeAnswer := .ok "/api", sessionAnswer := fun _ =>
            .ok { sessionId := "cs_test_123"
                  url := "https://checkout.stripe.com/test" }
          loadStripeOk := true, redirectError := none }
        { resource := "product-123" }
        { sessionId := "cs_test_123", url := "https://checkout.stripe.com/test" }
        "/api"
        (by simp [tryConsume, rlRefill]) (by decide) rfl rfl
        (by decide)).2.2.1])
    (by simp [tryConsume, rlRefill])
    (by decide)
    rfl
    rfl
  exact ⟨H.1, H.2.1, H.2.2.1, H.2.2.2⟩

/-! # Lemmas: x402 payment hook -/

/-- A completed trigger never leaves the hook in `loading`. -/
theorem triggerPayment_status_ne_loading (st : HookState) (resource : String)
    (coupon : Option String) (w : FlowWorld) (h : st.status ≠ .loading) :
    (triggerPayment st resource coupon w).1.status ≠ .loading := by
  unfold triggerPayment
  rw [if_neg h]
  cases w.quoteAnswer with
  | error m => simp
  | ok q =>
    cases w.signAnswer with
    | error m => simp
    | ok sig =>
      cases w.verifyAnswer with
      | error m => simp
      | ok res =>
        cases hsucc : res.success <;> simp [hsucc]

/-- Every non-no-op trigger issues exactly one outbound quote request. -/
theorem triggerPayment_one_quote (st : HookState) (resource : String)
    (coupon : Option String) (w : FlowWorld) (h : st.status ≠ .loading) :
    quoteRequestCount (triggerPayment st resource coupon w).2 = 1 := by
  unfold triggerPayment
  rw [if_neg h]
  cases w.quoteAnswer with
  | error m => rfl
  | ok q =>
    cases w.signAnswer with
    | error m => rfl
    | ok sig =>
      cases w.verifyAnswer with
      | error m => rfl
      | ok res =>
        cases hsucc : res.success <;> simp [hsucc] <;> rfl

/-- **C6** (functional correctness): for every triggered payment flow, the
quote used to build the transaction is obtained by a new `requestQuote`
network request issued at trigger time and is never a requirement value
held in state from a prior render or a previous (possibly failed) attempt
— the flow's behavior is independent of the held `requirement`, and the
requirement the transaction is built over is the server's answer to the
quote request issued now; in particular, two consecutive trigger
invocations on the same resource each produce their own outbound quote
request. -/
theorem x402_fresh_quote_per_trigger (st : HookState) (resource : String)
    (coupon : Option String) (w w₂ : FlowWorld)
    (h : st.status ≠ .loading) :
    quoteRequestCount (triggerPayment st resource coupon w).2 = 1 ∧
    (∀ held : Option X402Requirement,
      (triggerPayment { st with requirement := held }
        resource coupon w).2 =
      (triggerPayment st resource coupon w).2) ∧
    (∀ r, FlowEvent.txBuild r ∈ (triggerPayment st resource coupon w).2 →
      w.quoteAnswer = .ok r) ∧
    quoteRequestCount
      (triggerPayment (triggerPayment st resource coupon w).1
        resource coupon w₂).2 = 1 := by
  refine ⟨triggerPayment_one_quote st resource coupon w h, ?_, ?_,
    triggerPayment_one_quote _ resource coupon w₂
      (triggerPayment_status_ne_loading st resource coupon w h)⟩
  · intro held
    unfold triggerPayment
    rw [if_neg h, if_neg (show ({ st with requirement := held } :
      HookState).status ≠ .loading from h)]
    cases w.quoteAnswer with
    | error m => rfl
    | ok q =>
      cases w.signAnswer with
      | error m => rfl
      | ok sig =>
        cases w.verifyAnswer with
        | error m => rfl
        | ok res => cases hsucc : res.success <;> simp [hsucc]
  · intro r hr
    unfold triggerPayment at hr
    rw [if_neg h] at hr
    cases hq : w.quoteAnswer with
    | error m =>
      rw [hq] at hr
      simp at hr
    | ok q =>
      rw [hq] at hr
      have hrq : r = q := by
        cases hs : w.signAnswer with
        | error m =>
          rw [hs] at hr
          simp at hr
          exact hr
        | ok sig =>
          rw [hs] at hr
          cases hv : w.verifyAnswer with
          | error m =>
            rw [hv] at hr
            simp at hr
            exact hr
          | ok res =>
            rw [hv] at hr
            cases hsucc : res.success <;> simp [hsucc] at hr <;> exact hr
      rw [hrq]

/-- Witness for C6: from the idle initial state with a stale requirement
deliberately held in state, a concrete trigger issues exactly one quote
request, and a second consecutive trigger issues another. -/
theorem x402_fresh_quote_per_trigger_witness :
    quoteRequestCount
      (triggerPayment
        { HookState.initial with
          requirement := some ⟨"exact", "solana", 999, "stale", "USDC", "item-1"⟩ }
        "item-1" none
        ⟨.ok ⟨"exact", "solana", 100, "merchant", "USDC", "item-1"⟩,
          .ok "sig", .ok ⟨true, some "tx1", none, none, none⟩⟩).2 = 1 ∧
    quoteRequestCount
      (triggerPayment
        (triggerPayment
          { HookState.initial with
            requirement := some ⟨"exact", "solana", 999, "stale", "USDC", "item-1"⟩ }
          "item-1" none
          ⟨.ok ⟨"exact", "solana", 100, "merchant", "USDC", "item-1"⟩,
            .ok "sig", .ok ⟨true, some "tx1", none, none, none⟩⟩).1
        "item-1" none
        ⟨.ok ⟨"exact", "solana", 150, "merchant", "USDC", "item-1"⟩,
          .ok "sig2", .ok ⟨true, some "tx2", none, none, none⟩⟩).2 = 1 := by
  have H := x402_fresh_quote_per_trigger
    { HookState.initial with
      requirement := some ⟨"exact", "solana", 999, "stale", "USDC", "item-1"⟩ }
    "item-1" none
    ⟨.ok ⟨"exact", "solana", 100, "merchant", "USDC", "item-1"⟩,
      .ok "sig", .ok ⟨true, some "tx1", none, none, none⟩⟩
    ⟨.ok ⟨"exact", "solana", 150, "merchant", "USDC", "item-1"⟩,
      .ok "sig2", .ok ⟨true, some "tx2", none, none, none⟩⟩
    (by decide)
  exact ⟨H.1, H.2.2.2⟩

/-- **C7** (functional correctness): for every successful `PaymentResult`
produced by the x402 payment flow, the settlement value stored in payment
state equals the nested `settlement` field of the server's verification
response — it is the projection of that nested field, never a
reinterpretation (type cast) of the whole `PaymentResult` object as a
settlement record (in this embedding the two live in different types, and
the stored value is proved equal to the nested projection). -/
theorem x402_settlement_from_nested_field (st : HookState)
    (resource : String) (coupon : Option String) (w : FlowWorld)
    (req : X402Requirement) (sig : String) (result : PaymentResult)
    (h : st.status ≠ .loading)
    (hq : w.quoteAnswer = .ok req)
    (hsig : w.signAnswer = .ok sig)
    (hv : w.verifyAnswer = .ok result)
    (hsucc : result.success = true) :
    (triggerPayment st resource coupon w).1.settlement =
      result.settlement ∧
    (triggerPayment st resource coupon w).1.status = .success ∧
    (triggerPayment st resource coupon w).1.transactionId =
      result.transactionId := by
  unfold triggerPayment
  rw [if_neg h, hq, hsig, hv]
  simp [hsucc]

/-- Witness for C7: a concrete successful flow stores exactly the nested
settlement record of the verification response. -/
theorem x402_settlement_from_nested_field_witness :
    (triggerPayment HookState.initial "item-1" none
        ⟨.ok ⟨"exact", "solana", 100, "merchant", "USDC", "item-1"⟩,
          .ok "sig",
          .ok ⟨true, some "tx1", none, none,
            some ⟨"tx1", "solana", "wallet-1"⟩⟩⟩).1.settlement =
      some ⟨"tx1", "solana", "wallet-1"⟩ := by
  have H := x402_settlement_from_nested_field HookState.initial "item-1"
    none
    ⟨.ok ⟨"exact", "solana", 100, "merchant", "USDC", "item-1"⟩,
      .ok "sig",
      .ok ⟨true, some "tx1", none, none, some ⟨"tx1", "solana", "wallet-1"⟩⟩⟩
    ⟨"exact", "solana", 100, "merchant", "USDC", "item-1"⟩
    "sig"
    ⟨true, some "tx1", none, none, some ⟨"tx1", "solana", "wallet-1"⟩⟩
    (by decide) rfl rfl rfl rfl
  exact H.1

end CedrosPay
